import Mathlib

/-!
Verification of the session-orchestration core of the NotesBrainGem
repository: the `StateService` orchestrator (src/services/state-service.ts,
provided as src/unnamed/part_001), the system-instruction composer
(src/utils/system-instruction-builder.ts, provided inside
src/src/utils/config.ts) and the streamed command interpreter embedded in
`StateService.sendTextMessage`.

The TypeScript code is shallowly embedded: every function below is a
direct transcription of the corresponding source function, with JavaScript
idioms (string truthiness, `||` defaulting, `===` comparison, regex
matching for the two directive grammars, `JSON.parse`, `atob`) modelled
explicitly.  Asynchronous transports (the Gemini connections, the image
models) are modelled as oracles passed in as arguments, and the fire-and-
forget image jobs as emitted directives; ghost counters count connection
closes and text-chat re-initialisations.  Wall-clock concerns (the status
auto-clear timers, `Date.now()` identifiers, timestamps on timeline
events) are not modelled: identifiers produced by `Date.now()` enter as
explicit parameters, and timeline events carry message and type only.
-/

namespace NotesBrainGem

/-! ## Data model (src/types/types.ts, provided as src/unnamed/part_005) -/

/-- The `type` tag of an `Analysis` record. -/
inductive AnalysisType where
  | youtube | github | spreadsheet | file | search | url | video | workflow
deriving DecidableEq, Repr

/-- The `persona` tag of an `Analysis` record (`'assistant' | 'analyst'`). -/
inductive AnalysisPersona where
  | assistant | analyst
deriving DecidableEq, Repr

/-- One ingested knowledge source (interface `Analysis`). -/
structure Analysis where
  id : String
  title : String
  source : String
  summary : String
  type : AnalysisType
  persona : AnalysisPersona
  previewData : Option String := none
  tags : Option (List String) := none
deriving DecidableEq, Repr

/-- Interface `SearchResult`. -/
structure SearchResult where
  uri : String
  title : String
deriving DecidableEq, Repr

/-- The `type` tag of a `TimelineEvent`. -/
inductive TimelineEventType where
  | info | success | error | record | process | connect | disconnect | history
deriving DecidableEq, Repr

/-- Interface `TimelineEvent`; the wall-clock `timestamp` field is not
modelled. -/
structure TimelineEvent where
  message : String
  type : TimelineEventType
deriving DecidableEq, Repr

/-- Interface `ProcessingState`. -/
structure ProcessingState where
  active : Bool
  step : String
  progress : Nat
deriving DecidableEq, Repr

/-- The `role` of a `ChatMessage` (`'user' | 'model'`). -/
inductive ChatRole where
  | user | model
deriving DecidableEq, Repr

/-- Interface `ChatMessage`.  The three optional fields are `none` until the
image-job runner touches the message. -/
structure ChatMessage where
  role : ChatRole
  text : String
  imageUrls : Option (List String) := none
  isLoadingImages : Option Bool := none
  imageCount : Option Nat := none
deriving DecidableEq, Repr

/-- Interface `SavedSession`; timeline events carry no timestamps (see the
header note). -/
structure SavedSession where
  id : String
  title : String
  analyses : List Analysis
  timelineEvents : List TimelineEvent
  systemInstruction : String
  searchResults : List SearchResult
  activePersona : Option String
deriving DecidableEq, Repr

/-- Interface `AppState`: the single state object owned by `StateService`.
`status` and `error` are modelled without their auto-clear timers, and
`searchHistory`/`savedSessions` persistence (`localStorage`) is external. -/
structure AppState where
  analyses : List Analysis
  selectedAnalysisId : Option String
  processingState : ProcessingState
  isRecording : Bool
  status : String
  error : String
  searchResults : List SearchResult
  systemInstruction : String
  timelineEvents : List TimelineEvent
  showTimelineModal : Bool
  showHistoryModal : Bool
  showSidebar : Bool
  showVisualizerPanel : Bool
  savedSessions : List SavedSession
  activePersona : Option String
  chatHistory : List ChatMessage
  isChatting : Bool
  lastGeneratedImages : List String
deriving DecidableEq, Repr

/-! ## JavaScript primitives used by the source

String truthiness, `||` defaulting on strings, `String.prototype.trim`,
the `\s` character class of JavaScript regular expressions, `split`,
`toUpperCase` on the ASCII keys that reach it, and template-literal
number formatting. -/

/-- Truthiness of a JavaScript string: every string except `''` is truthy. -/
def jsTruthy (s : String) : Bool :=
  !s.isEmpty

/-- Truthiness of a `string | null` value: `null` and `''` are falsy. -/
def jsTruthyOpt (o : Option String) : Bool :=
  match o with
  | none => false
  | some s => jsTruthy s

/-- JavaScript `x || d` for `x : string | null` with a string default. -/
def jsOrDefault (o : Option String) (d : String) : String :=
  match o with
  | none => d
  | some s => if s.isEmpty then d else s

/-- JavaScript `x || d` for plain strings. -/
def jsOrDefaultStr (s d : String) : String :=
  if s.isEmpty then d else s

/-- The character class `\s` of JavaScript regular expressions, which is
also the set trimmed by `String.prototype.trim`: tab, line feed, vertical
tab, form feed, carriage return, space, NBSP, the Unicode space
separators, the line and paragraph separators, and the BOM. -/
def jsWhitespace (c : Char) : Bool :=
  c = ' ' ∨ c = '\t' ∨ c = '\n' ∨ c = '\x0b' ∨ c = '\x0c' ∨ c = '\r' ∨
  c = '\u00a0' ∨ c = '\u1680' ∨
  ('\u2000' ≤ c ∧ c ≤ '\u200a') ∨
  c = '\u2028' ∨ c = '\u2029' ∨ c = '\u202f' ∨ c = '\u205f' ∨
  c = '\u3000' ∨ c = '\ufeff'

/-- `String.prototype.trim` on the character list. -/
def jsTrimList (l : List Char) : List Char :=
  ((l.dropWhile jsWhitespace).reverse.dropWhile jsWhitespace).reverse

/-- `String.prototype.trim`. -/
def jsTrim (s : String) : String :=
  String.mk (jsTrimList s.data)

/-- `String.prototype.split('-')`. -/
def jsSplitDash (s : String) : List String :=
  s.split (fun c => c = '-')

/-- `w.charAt(0).toUpperCase() + w.slice(1)` (only ASCII keys reach it). -/
def jsCapitalize (w : String) : String :=
  match w.data with
  | [] => ""
  | c :: rest => String.mk (c.toUpper :: rest)

/-! ## JSON values and `JSON.parse`

`getSingleSystemInstruction` and `generateCompositeSystemInstruction`
call `JSON.parse` on the summary of a `workflow` analysis and read its
`summary_base64` / `summary` properties.  `jsonParse` returns `none`
exactly where `JSON.parse` throws.  One known divergence: a `\u` escape
encoding a lone surrogate yields U+FFFD here, because Lean strings hold
only Unicode scalar values; no claim touches that case. -/

/-- A parsed JSON value; numbers keep their raw source text. -/
inductive JsValue where
  | jnull
  | jbool (b : Bool)
  | jnum (raw : String)
  | jstr (s : String)
  | jarr (elems : List JsValue)
  | jobj (fields : List (String × JsValue))

/-- JSON insignificant whitespace. -/
def jsonWs (c : Char) : Bool :=
  c = ' ' ∨ c = '\t' ∨ c = '\n' ∨ c = '\r'

/-- Drop leading JSON whitespace. -/
def skipJsonWs : List Char → List Char
  | c :: rest => if jsonWs c then skipJsonWs rest else c :: rest
  | [] => []

/-- Hex digit value. -/
def hexVal (c : Char) : Option Nat :=
  if '0' ≤ c ∧ c ≤ '9' then some (c.toNat - '0'.toNat)
  else if 'a' ≤ c ∧ c ≤ 'f' then some (c.toNat - 'a'.toNat + 10)
  else if 'A' ≤ c ∧ c ≤ 'F' then some (c.toNat - 'A'.toNat + 10)
  else none

/-- Four hex digits. -/
def hex4 : List Char → Option (Nat × List Char)
  | a :: b :: c :: d :: rest => do
    let va ← hexVal a
    let vb ← hexVal b
    let vc ← hexVal c
    let vd ← hexVal d
    pure (((va * 16 + vb) * 16 + vc) * 16 + vd, rest)
  | _ => none

/-- A Unicode scalar value, or U+FFFD for a would-be lone surrogate. -/
def scalarOrReplacement (n : Nat) : Char :=
  if n < 0xd800 ∨ (0xdfff < n ∧ n < 0x110000) then
    Char.ofNat n
  else
    '�'

/-- Body of a JSON string after the opening quote, decoding the escape
sequences `JSON.parse` accepts; surrogate pairs in `\u` escapes combine. -/
def parseJsonString : Nat → List Char → Option (List Char × List Char)
  | 0, _ => none
  | Nat.succ fuel, l =>
    match l with
    | [] => none
    | '"' :: rest => some ([], rest)
    | '\\' :: e :: rest =>
      let simple : Option (Char × List Char) :=
        if e = '"' then some ('"', rest)
        else if e = '\\' then some ('\\', rest)
        else if e = '/' then some ('/', rest)
        else if e = 'b' then some ('\x08', rest)
        else if e = 'f' then some ('\x0c', rest)
        else if e = 'n' then some ('\n', rest)
        else if e = 'r' then some ('\r', rest)
        else if e = 't' then some ('\t', rest)
        else none
      match simple with
      | some (c, rest) => do
        let (cs, rest') ← parseJsonString fuel rest
        pure (c :: cs, rest')
      | none =>
        if e = 'u' then do
          let (n, rest1) ← hex4 rest
          if 0xd800 ≤ n ∧ n ≤ 0xdbff then
            match rest1 with
            | '\\' :: 'u' :: rest2 => do
              let (n2, rest3) ← hex4 rest2
              if 0xdc00 ≤ n2 ∧ n2 ≤ 0xdfff then do
                let (cs, rest') ← parseJsonString fuel rest3
                pure (scalarOrReplacement
                  (0x10000 + (n - 0xd800) * 0x400 + (n2 - 0xdc00)) :: cs, rest')
              else do
                let (cs, rest') ← parseJsonString fuel rest1
                pure ('�' :: cs, rest')
            | _ => do
              let (cs, rest') ← parseJsonString fuel rest1
              pure ('�' :: cs, rest')
          else do
            let (cs, rest') ← parseJsonString fuel rest1
            pure (scalarOrReplacement n :: cs, rest')
        else none
    | c :: rest =>
      if c.toNat < 0x20 then none
      else do
        let (cs, rest') ← parseJsonString fuel rest
        pure (c :: cs, rest')

/-- Digits `[0-9]*` split off the front. -/
def spanDigits (l : List Char) : List Char × List Char :=
  l.span (fun c => '0' ≤ c ∧ c ≤ '9')

/-- A JSON number (strict grammar), returned as its raw text. -/
def parseJsonNumber (l : List Char) : Option (List Char × List Char) := do
  let (sign, l1) := match l with
    | '-' :: rest => (['-'], rest)
    | _ => (([] : List Char), l)
  let (intPart, l2) ←
    match l1 with
    | '0' :: rest => some (['0'], rest)
    | c :: _ =>
      if '1' ≤ c ∧ c ≤ '9' then
        let (ds, rest) := spanDigits l1
        some (ds, rest)
      else none
    | [] => none
  let (fracPart, l3) ←
    match l2 with
    | '.' :: rest =>
      let (ds, rest') := spanDigits rest
      if ds.isEmpty then none else some ('.' :: ds, rest')
    | _ => some (([] : List Char), l2)
  let (expPart, l4) ←
    match l3 with
    | e :: rest =>
      if e = 'e' ∨ e = 'E' then
        let (sgn, rest1) := match rest with
          | '+' :: r => (['+'], r)
          | '-' :: r => (['-'], r)
          | _ => (([] : List Char), rest)
        let (ds, rest2) := spanDigits rest1
        if ds.isEmpty then none else some (e :: (sgn ++ ds), rest2)
      else some (([] : List Char), l3)
    | [] => some (([] : List Char), l3)
  pure (sign ++ intPart ++ fracPart ++ expPart, l4)

/-- Match a literal keyword. -/
def dropLit : List Char → List Char → Option (List Char)
  | [], l => some l
  | k :: ks, c :: rest => if c = k then dropLit ks rest else none
  | _ :: _, [] => none

mutual

/-- One JSON value, leading whitespace allowed. -/
def parseJsonValue : Nat → List Char → Option (JsValue × List Char)
  | 0, _ => none
  | Nat.succ fuel, l =>
    match skipJsonWs l with
    | [] => none
    | c :: rest =>
      if c = '"' then do
        let (cs, rest') ← parseJsonString (Nat.succ fuel) rest
        pure (JsValue.jstr (String.mk cs), rest')
      else if c = 't' then do
        let rest' ← dropLit ['r', 'u', 'e'] rest
        pure (JsValue.jbool true, rest')
      else if c = 'f' then do
        let rest' ← dropLit ['a', 'l', 's', 'e'] rest
        pure (JsValue.jbool false, rest')
      else if c = 'n' then do
        let rest' ← dropLit ['u', 'l', 'l'] rest
        pure (JsValue.jnull, rest')
      else if c = '[' then
        match skipJsonWs rest with
        | ']' :: rest' => pure (JsValue.jarr [], rest')
        | l' => do
          let (elems, rest') ← parseJsonElems fuel l'
          pure (JsValue.jarr elems, rest')
      else if c = '{' then
        match skipJsonWs rest with
        | '}' :: rest' => pure (JsValue.jobj [], rest')
        | l' => do
          let (fields, rest') ← parseJsonFields fuel l'
          pure (JsValue.jobj fields, rest')
      else do
        let (raw, rest') ← parseJsonNumber (c :: rest)
        pure (JsValue.jnum (String.mk raw), rest')

/-- Comma-separated array elements up to `]`. -/
def parseJsonElems : Nat → List Char → Option (List JsValue × List Char)
  | 0, _ => none
  | Nat.succ fuel, l => do
    let (v, rest) ← parseJsonValue fuel l
    match skipJsonWs rest with
    | ',' :: rest' => do
      let (vs, rest'') ← parseJsonElems fuel rest'
      pure (v :: vs, rest'')
    | ']' :: rest' => pure ([v], rest')
    | _ => none

/-- Comma-separated object members up to `}`. -/
def parseJsonFields : Nat → List Char → Option (List (String × JsValue) × List Char)
  | 0, _ => none
  | Nat.succ fuel, l => do
    match skipJsonWs l with
    | '"' :: rest => do
      let (key, rest1) ← parseJsonString (Nat.succ fuel) rest
      match skipJsonWs rest1 with
      | ':' :: rest2 => do
        let (v, rest3) ← parseJsonValue fuel rest2
        match skipJsonWs rest3 with
        | ',' :: rest4 => do
          let (fs, rest5) ← parseJsonFields fuel rest4
          pure ((String.mk key, v) :: fs, rest5)
        | '\x7d' :: rest4 => pure ([(String.mk key, v)], rest4)
        | _ => none
      | _ => none
    | _ => none

end

/-- `JSON.parse`: `none` where it throws. -/
def jsonParse (s : String) : Option JsValue := do
  let (v, rest) ← parseJsonValue (s.length + 1) s.data
  match skipJsonWs rest with
  | [] => some v
  | _ => none


/-! ## `atob`, UTF-8 decoding, and JavaScript property access

The workflow branch of the composer evaluates
`decodeURIComponent(escape(atob(parsed.summary_base64)))`: `atob` is the
forgiving-base64 decoder and the `escape`/`decodeURIComponent` pair
re-reads its byte output as UTF-8.  Each step returns `none` exactly where
the JavaScript call throws; the `try`/`catch` wrapping in the source then
falls back to the error placeholder. -/

/-- Base64 alphabet value of a character. -/
def b64Val (c : Char) : Option Nat :=
  if 'A' ≤ c ∧ c ≤ 'Z' then some (c.toNat - 'A'.toNat)
  else if 'a' ≤ c ∧ c ≤ 'z' then some (c.toNat - 'a'.toNat + 26)
  else if '0' ≤ c ∧ c ≤ '9' then some (c.toNat - '0'.toNat + 52)
  else if c = '+' then some 62
  else if c = '/' then some 63
  else none

/-- Map base64 characters to their values, failing on a foreign character. -/
def b64Vals : List Char → Option (List Nat)
  | [] => some []
  | c :: rest => do
    let v ← b64Val c
    let vs ← b64Vals rest
    pure (v :: vs)

/-- Decode groups of base64 values into bytes (forgiving tail handling). -/
def b64Groups : List Nat → Option (List Nat)
  | [] => some []
  | [_] => none
  | [a, b] => some [(a * 4 + b / 16) % 256]
  | [a, b, c] => some [(a * 4 + b / 16) % 256, (b % 16 * 16 + c / 4) % 256]
  | a :: b :: c :: d :: rest => do
    let tl ← b64Groups rest
    pure ((a * 4 + b / 16) % 256 :: (b % 16 * 16 + c / 4) % 256 ::
      (c % 4 * 64 + d) % 256 :: tl)

/-- `atob`: strip ASCII whitespace, strip up to two trailing `=`, decode;
`none` where `atob` throws an `InvalidCharacterError`. -/
def atobBytes (s : String) : Option (List Nat) :=
  let cleaned := s.data.filter (fun c =>
    !(c = ' ' ∨ c = '\t' ∨ c = '\n' ∨ c = '\x0c' ∨ c = '\r'))
  let unpadded :=
    if cleaned.length % 4 = 0 then
      match cleaned.reverse with
      | '=' :: '=' :: rest => rest.reverse
      | '=' :: rest => rest.reverse
      | _ => cleaned
    else cleaned
  if unpadded.length % 4 = 1 then none
  else do
    let vs ← b64Vals unpadded
    b64Groups vs

/-- Strict UTF-8 decoding of a byte list; `none` on a malformed sequence
(where `decodeURIComponent` throws a `URIError`). -/
def utf8Decode : List Nat → Option (List Char)
  | [] => some []
  | b :: rest =>
    if b < 0x80 then do
      let cs ← utf8Decode rest
      pure (Char.ofNat b :: cs)
    else if 0xc2 ≤ b ∧ b ≤ 0xdf then
      match rest with
      | b2 :: rest' =>
        if 0x80 ≤ b2 ∧ b2 ≤ 0xbf then do
          let cs ← utf8Decode rest'
          pure (Char.ofNat ((b - 0xc0) * 0x40 + (b2 - 0x80)) :: cs)
        else none
      | _ => none
    else if 0xe0 ≤ b ∧ b ≤ 0xef then
      match rest with
      | b2 :: b3 :: rest' =>
        if (0x80 ≤ b2 ∧ b2 ≤ 0xbf) ∧ (0x80 ≤ b3 ∧ b3 ≤ 0xbf) then
          let n := (b - 0xe0) * 0x1000 + (b2 - 0x80) * 0x40 + (b3 - 0x80)
          if n < 0x800 ∨ (0xd800 ≤ n ∧ n ≤ 0xdfff) then none
          else do
            let cs ← utf8Decode rest'
            pure (Char.ofNat n :: cs)
        else none
      | _ => none
    else if 0xf0 ≤ b ∧ b ≤ 0xf4 then
      match rest with
      | b2 :: b3 :: b4 :: rest' =>
        if (0x80 ≤ b2 ∧ b2 ≤ 0xbf) ∧ (0x80 ≤ b3 ∧ b3 ≤ 0xbf) ∧
            (0x80 ≤ b4 ∧ b4 ≤ 0xbf) then
          let n := (b - 0xf0) * 0x40000 + (b2 - 0x80) * 0x1000 +
            (b3 - 0x80) * 0x40 + (b4 - 0x80)
          if n < 0x10000 ∨ 0x10ffff < n then none
          else do
            let cs ← utf8Decode rest'
            pure (Char.ofNat n :: cs)
        else none
      | _ => none
    else none

/-- `decodeURIComponent(escape(bytes))`: UTF-8 decoding of a byte string. -/
def bytesToUtf8String (bytes : List Nat) : Option String := do
  let cs ← utf8Decode bytes
  pure (String.mk cs)

/-- Modelled from the spec: `base64ToString` (src/utils/utils.ts, a file not
included in the provided sources) decodes the base64 `summary_base64`
envelope field back to its markdown text — the same base64-and-UTF-8
decoding as the composer performs inline in its single-analysis branch.
`none` where the original would throw into the surrounding `catch`. -/
def base64ToString (s : String) : Option String := do
  let bytes ← atobBytes s
  bytesToUtf8String bytes

/-- JavaScript property access `v.key` on a parsed JSON value:
`none` = the access throws (reading a property of `null`),
`some none` = the property is `undefined`,
`some (some w)` = the property holds `w`. -/
def jsProp (v : JsValue) (key : String) : Option (Option JsValue) :=
  match v with
  | JsValue.jnull => none
  | JsValue.jobj fields =>
    some (fields.foldl (fun acc kv => if kv.1 = key then some kv.2 else acc) none)
  | _ => some none

/-- Is a raw JSON number zero (`0`, `-0`, `0.00`, `0e9`, …)? -/
def jsNumIsZero (raw : String) : Bool :=
  (raw.data.takeWhile (fun c => ¬(c = 'e' ∨ c = 'E'))).all
    (fun c => c = '0' ∨ c = '-' ∨ c = '.' ∨ c = '+')

/-- JavaScript truthiness of a possibly-undefined parsed JSON value. -/
def jsTruthyVal (v : Option JsValue) : Bool :=
  match v with
  | none => false
  | some JsValue.jnull => false
  | some (JsValue.jbool b) => b
  | some (JsValue.jnum raw) => !jsNumIsZero raw
  | some (JsValue.jstr s) => !s.isEmpty
  | some (JsValue.jarr _) => true
  | some (JsValue.jobj _) => true

mutual

/-- JavaScript `String(v)` on a parsed JSON value (array elements join with
commas, objects print as `[object Object]`). -/
def jsValToString : JsValue → String
  | JsValue.jnull => "null"
  | JsValue.jbool b => if b then "true" else "false"
  | JsValue.jnum raw => raw
  | JsValue.jstr s => s
  | JsValue.jarr elems => String.intercalate "," (jsValElemStrings elems)
  | JsValue.jobj _ => "[object Object]"

/-- Elements of an array stringify with `null` printing as empty. -/
def jsValElemStrings : List JsValue → List String
  | [] => []
  | JsValue.jnull :: rest => "" :: jsValElemStrings rest
  | v :: rest => jsValToString v :: jsValElemStrings rest

end


/-! ## System Instruction Composer

Transcribed from src/utils/system-instruction-builder.ts (provided inside
src/src/utils/config.ts, lines 22-199): the persona instruction table, the
tool-grammar trailer, `getSingleSystemInstruction` and
`generateCompositeSystemInstruction`.  String literals are verbatim. -/

/-- The `personaInstructions` lookup table (lines 22-31); `none` models an
`undefined` member access for an unknown key. -/
def personaInstructions (key : String) : Option String :=
  if key = "tutor" then
    some "Você atua como um Tutor. Seu objetivo principal é ensinar o usuário sobre o conteúdo fornecido de forma clara, paciente e didática. Use analogias, faça perguntas para verificar a compreensão e divida tópicos complexos em partes menores. Seu tom é encorajador e solidário."
  else if key = "coding-engineer" then
    some "Você atua como um Engenheiro de Codificação sênior. Suas respostas devem ser técnicas, precisas e focadas em código, algoritmos e melhores práticas de engenharia de software. Quando apropriado, forneça exemplos de código. Seja direto e use a terminologia correta."
  else if key = "direct" then
    some "Você é um assistente direto e conciso. Suas respostas devem ser curtas, objetivas e ir direto ao ponto. Evite formalidades, preâmbulos e explicações desnecessariamente longas. A velocidade e a clareza são suas principais prioridades."
  else if key = "data-analyst" then
    some "Você atua como um Analista de Dados sênior e parceiro de negócios. Sua prioridade máxima é a honestidade e a precisão dos dados. Você NUNCA deve fornecer informações imprecisas ou especulativas. Se uma resposta não pode ser apoiada pelos dados fornecidos, afirme isso claramente. Seu objetivo é ajudar o usuário a tomar decisões baseadas em fatos, identificar tendências, resolver problemas de negócios e ser um consultor de confiança, sempre com base nos dados reais disponíveis."
  else none

/-- `TOOL_INSTRUCTIONS` (lines 33-49): the always-appended tool-grammar
trailer documenting the two directive grammars. -/
def TOOL_INSTRUCTIONS : String :=
  "\n\n---\n\n**Ferramentas Disponíveis:**\n\n1.  **Pesquisa Google:** Você PODE e DEVE usar a Pesquisa Google para encontrar informações atualizadas, verificar fatos ou enriquecer as respostas quando o conhecimento fornecido for insuficiente.\n2.  **Geração de Imagem:** Para criar uma ou mais imagens, você DEVE responder com texto introdutório seguido do comando no seguinte formato:\n    `[generate_images(N): 'Uma descrição detalhada em inglês da imagem a ser gerada']`\n    Onde 'N' é o número de imagens a serem geradas.\n    Exemplo 1: Se o usuário pedir \"desenhe um gato de chapéu\", sua resposta pode ser `Claro, aqui está: [generate_images(1): 'A photorealistic image of a cat wearing a small wizard hat']`.\n    Exemplo 2: Se o usuário pedir \"crie 3 robôs diferentes\", sua resposta pode ser `Gerando 3 robôs para você: [generate_images(3): 'Three different styles of friendly robots, futuristic']`.\n    A descrição para a imagem deve ser sempre em INGLÊS para melhores resultados.\n3.  **Edição de Imagem:** Para editar a imagem gerada mais recentemente, você DEVE responder com texto introdutório seguido do comando no seguinte formato:\n    `[edit_image: 'Uma instrução clara em inglês sobre como modificar a imagem']`\n    Exemplo: Se o usuário disser \"agora, adicione um fundo de galáxia\", sua resposta pode ser `Ótima ideia! [edit_image: 'add a galaxy background to the image']`.\n    A instrução de edição também deve ser em INGLÊS."

/-- `detailInstruction` (lines 53-54). -/
def detailInstruction : String :=
  "\nAo responder, não se limite a resumos superficiais. Mergulhe fundo nos detalhes do conteúdo. Elabore os pontos-chave, explique conceitos complexos com clareza e, sempre que possível, use exemplos específicos do material de origem para ilustrar suas explicações. Seu objetivo é demonstrar um domínio completo e detalhado do conhecimento fornecido."

/-- `enrichmentInstruction` (line 56). -/
def enrichmentInstruction : String :=
  "Este resumo é sua base de conhecimento principal. Use-o como ponto de partida para todas as respostas. No entanto, você tem a capacidade de pesquisar na internet usando o Google. Use essa ferramenta para complementar as informações, fornecer contexto atualizado, comparar o conteúdo com outras fontes ou responder a perguntas que vão além do resumo. Seu objetivo é ser um especialista completo sobre o tópico, não apenas um repetidor do conteúdo fornecido."

/-- The initial value of `workflowSummary` (lines 92-93), kept on any throw
inside the `try` of the single-analysis workflow branch. -/
def workflowErrorSingle : String :=
  "Ocorreu um erro ao processar o resumo do fluxo de trabalho."

/-- Line 105: neither `summary_base64` nor `summary` was truthy. -/
def workflowEmptySingle : String :=
  "O resumo do fluxo de trabalho estava vazio."

/-- Line 184: the `catch` of the multi-analysis workflow branch. -/
def workflowErrorMulti : String :=
  "Erro ao processar o resumo do fluxo de trabalho."

/-- Line 181: neither envelope field was truthy (multi-analysis branch). -/
def workflowUnavailableMulti : String :=
  "Resumo do fluxo de trabalho indisponível."

/-- Lines 92-109: decode the workflow summary envelope for the
single-analysis template.  Every throwing step (`JSON.parse`, property
access on `null`, `atob`, `decodeURIComponent`) lands in the `catch`,
which leaves `workflowSummary` at its initial error value. -/
def decodeWorkflowSingle (summary : String) : String :=
  match jsonParse summary with
  | none => workflowErrorSingle
  | some parsed =>
    match jsProp parsed "summary_base64" with
    | none => workflowErrorSingle
    | some v64 =>
      if jsTruthyVal v64 then
        match (atobBytes (jsValToString (v64.getD JsValue.jnull))).bind bytesToUtf8String with
        | some s => s
        | none => workflowErrorSingle
      else
        match jsProp parsed "summary" with
        | none => workflowErrorSingle
        | some vs =>
          if jsTruthyVal vs then jsValToString (vs.getD JsValue.jnull)
          else workflowEmptySingle

/-- Lines 171-186: decode the workflow summary envelope for one source of
the multi-analysis block (`base64ToString` instead of the inline chain,
and the multi-branch fallback strings). -/
def decodeWorkflowMulti (summary : String) : String :=
  match jsonParse summary with
  | none => workflowErrorMulti
  | some parsed =>
    match jsProp parsed "summary_base64" with
    | none => workflowErrorMulti
    | some v64 =>
      if jsTruthyVal v64 then
        match base64ToString (jsValToString (v64.getD JsValue.jnull)) with
        | some s => s
        | none => workflowErrorMulti
      else
        match jsProp parsed "summary" with
        | none => workflowErrorMulti
        | some vs =>
          if jsTruthyVal vs then jsValToString (vs.getD JsValue.jnull)
          else workflowUnavailableMulti

/-- The three literal segments of the workflow template (lines 110-119),
split around the interpolated title and decoded summary. -/
def workflowTpl0 : String :=
  "Você é um assistente de voz especialista no fluxo de trabalho n8n: \""

/-- Second segment of the workflow template. -/
def workflowTpl1 : String :=
  "\".\nVocê já analisou um vídeo sobre ele e seu conhecimento base é o seguinte resumo:\n--- INÍCIO DO CONHECIMENTO ---\n"

/-- Third segment of the workflow template. -/
def workflowTpl2 : String :=
  "\n--- FIM DO CONHECIMENTO ---\nSeu papel é:\n1. Responder a perguntas sobre o propósito, os nós e a lógica do fluxo de trabalho.\n2. Manter um tom conversacional e natural em português do Brasil.\n3. Se o usuário pedir o JSON do workflow, informe que ele pode ser copiado do painel de análise.\n4. "

/-- `getSingleSystemInstruction` (lines 51-131).  Branch order as in the
source: the analysis's own `persona === 'analyst'` first, then `type`. -/
def getSingleSystemInstruction (analysis : Analysis) : String :=
  let title := analysis.title
  let summary := analysis.summary
  if analysis.persona = AnalysisPersona.analyst then
    "Você é um assistente de voz e analista de dados especialista. Seu foco é o conteúdo da seguinte planilha/documento: \"" ++ title ++
    "\".\nVocê já realizou uma análise preliminar e tem o seguinte resumo como seu conhecimento base.\n--- INÍCIO DO CONHECIMENTO ---\n" ++ summary ++
    "\n--- FIM DO CONHECIMENTO ---\nSeu papel é:\n1. Responder perguntas sobre os dados usando o conhecimento acima. Seja preciso e quantitativo sempre que possível.\n2. Manter um tom de analista: claro, objetivo e focado nos dados. Fale em português do Brasil.\n3. Sua principal fonte de verdade são os dados fornecidos. No entanto, você PODE e DEVE usar a Pesquisa Google para enriquecer sua análise, comparar os dados com benchmarks externos ou responder a perguntas que exigem contexto adicional. Sempre deixe claro quando uma informação vem dos dados fornecidos versus de uma pesquisa externa.\n4. Não invente dados; sua prioridade é a precisão." ++ detailInstruction
  else if analysis.type = AnalysisType.github then
    "Você é um assistente de voz e especialista no repositório do GitHub: \"" ++ title ++
    "\".\nVocê já analisou o README e a estrutura de arquivos do projeto. Seu conhecimento base é o seguinte resumo:\n--- INÍCIO DO CONHECIMENTO ---\n" ++ summary ++
    "\n--- FIM DO CONHECIMENTO ---\nSeu papel é:\n1. Responder perguntas sobre o propósito, tecnologia, estrutura e como usar o repositório.\n2. Manter um tom técnico e prestativo, como um engenheiro de software sênior, falando em português do Brasil.\n3. " ++ enrichmentInstruction ++ detailInstruction
  else if analysis.type = AnalysisType.youtube ∨ analysis.type = AnalysisType.video then
    "Você é um assistente de voz inteligente especializado no vídeo: \"" ++ title ++
    "\".\nVocê já assistiu ao vídeo e analisou tanto o áudio quanto os elementos visuais. Seu conhecimento base é o seguinte resumo:\n--- INÍCIO DO CONHECIMENTO ---\n" ++ summary ++
    "\n--- FIM DO CONHECIMENTO ---\nSeu papel é:\n1. Responder a perguntas sobre o vídeo. Isso inclui o conteúdo falado (tópicos, ideias) E detalhes visuais (cores, pessoas, objetos, texto na tela, ações).\n2. Manter um tom conversacional e natural em português do Brasil.\n3. " ++ enrichmentInstruction ++ detailInstruction
  else if analysis.type = AnalysisType.workflow then
    workflowTpl0 ++ title ++
    workflowTpl1 ++ decodeWorkflowSingle summary ++
    workflowTpl2 ++ enrichmentInstruction ++ detailInstruction
  else
    "Você é um assistente de voz inteligente especializado no seguinte conteúdo: \"" ++ title ++
    "\".\nVocê já analisou o conteúdo e tem o seguinte resumo detalhado como seu conhecimento.\n--- INÍCIO DO CONHECIMENTO ---\n" ++ summary ++
    "\n--- FIM DO CONHECIMENTO ---\nSeu papel é:\n1. Responder perguntas sobre o conteúdo usando o conhecimento acima.\n2. Manter um tom conversacional e natural em português do Brasil.\n3. " ++ enrichmentInstruction ++ detailInstruction

/-- The string form of the `type` union member embedded by the
`${analysis.type}` interpolation. -/
def analysisTypeStr : AnalysisType → String
  | AnalysisType.youtube => "youtube"
  | AnalysisType.github => "github"
  | AnalysisType.spreadsheet => "spreadsheet"
  | AnalysisType.file => "file"
  | AnalysisType.search => "search"
  | AnalysisType.url => "url"
  | AnalysisType.video => "video"
  | AnalysisType.workflow => "workflow"

/-- `persona.split('-').map(capitalize).join(' ')` (lines 139-142). -/
def personaTitleOf (persona : String) : String :=
  String.intercalate " " ((jsSplitDash persona).map jsCapitalize)

/-- The `personaPrefix` computation (lines 137-144): empty unless the
persona key is truthy and known. -/
def personaPreamble (persona : Option String) : String :=
  match persona with
  | none => ""
  | some p =>
    if p.isEmpty then ""
    else
      match personaInstructions p with
      | none => ""
      | some instr =>
        "**PERSONA ATIVA: " ++ personaTitleOf p ++ "**\n" ++ instr ++ "\n\n---\n\n"

/-- The generic no-context instruction (lines 147-151). -/
def genericInstruction : String :=
  "Você é um assistente de voz avançado que fala português do Brasil. Sua principal diretriz é a honestidade e a precisão factual absoluta. Ao interagir:\n1.  **Priorize a Verdade:** Sempre forneça informações corretas e atualizadas. Para qualquer tópico que exija dados do mundo real, eventos recentes ou fatos específicos, você DEVE usar a ferramenta de busca do Google para verificar e fundamentar suas respostas. Não confie apenas em seu conhecimento de treinamento.\n2.  **Seja Honesto e Corretivo:** Se o usuário afirmar algo que seja factualmente incorreto, sua função é corrigi-lo de forma educada, mas direta. Não concorde com informações erradas para ser agradável. Sua lealdade é com os fatos.\n3.  **Pesquisa Avançada:** Ao usar a busca, não se limite a uma ou duas fontes. Realize uma pesquisa abrangente, sintetizando informações de múltiplos resultados confiáveis para construir uma resposta completa, precisa e com nuances.\n4.  **Seja um Assistente de Confiança:** Seu objetivo é ser uma fonte de informação confiável. A precisão e a honestidade são mais importantes do que a concordância."

/-- The `analyses.forEach((analysis, index) => ...)` accumulation of
labelled knowledge blocks (lines 170-193), as a recursion carrying the
zero-based `index`. -/
def multiSourceBlocks : Nat → List Analysis → String
  | _, [] => ""
  | index, analysis :: rest =>
    let contentSummary :=
      if analysis.type = AnalysisType.workflow then decodeWorkflowMulti analysis.summary
      else analysis.summary
    "--- INÍCIO DA FONTE " ++ toString (index + 1) ++ ": \"" ++ analysis.title ++
      "\" (" ++ analysisTypeStr analysis.type ++ ") ---\n" ++
      contentSummary ++ "\n" ++
      "--- FIM DA FONTE " ++ toString (index + 1) ++ " ---\n\n" ++
      multiSourceBlocks (index + 1) rest

/-- The multi-analysis preamble (line 169). -/
def multiIntro : String :=
  "Você é um assistente de voz especialista com conhecimento de múltiplas fontes. Abaixo estão os resumos dos conteúdos que você analisou. Responda às perguntas com base estritamente nessas informações. Ao responder, se possível, mencione a fonte (título) da qual você está extraindo a informação.\n\n"

/-- The multi-analysis closing directive (lines 194-196). -/
def multiOutro : String :=
  "Sua base de conhecimento principal são as fontes listadas acima. Fale em português do Brasil.\nVocê deve usar a Pesquisa Google para enriquecer suas respostas, encontrar informações mais recentes, ou comparar e contrastar os dados das fontes com o conhecimento geral da web. Deixe claro quando a informação vem de uma fonte específica ou de uma pesquisa externa.\nAo responder, mergulhe fundo nos detalhes de cada fonte relevante para fornecer a resposta mais completa possível. Se a pergunta abranger múltiplos contextos, compare e contraste as informações entre as fontes para oferecer uma visão mais rica e integrada."

/-- `generateCompositeSystemInstruction` (lines 133-199).  The source
branches on `analyses.length === 0` / `=== 1` / otherwise, matched here
on the list shape. -/
def generateCompositeSystemInstruction (analyses : List Analysis)
    (persona : Option String) : String :=
  let personaPreamble' := personaPreamble persona
  match analyses with
  | [] =>
    if !personaPreamble'.isEmpty then
      personaPreamble' ++ "Use sua persona para conversas gerais. " ++
        genericInstruction ++ TOOL_INSTRUCTIONS
    else
      genericInstruction ++ TOOL_INSTRUCTIONS
  | [analysis] =>
    personaPreamble' ++ getSingleSystemInstruction analysis ++ TOOL_INSTRUCTIONS
  | _ =>
    personaPreamble' ++ multiIntro ++ multiSourceBlocks 0 analyses ++
      multiOutro ++ TOOL_INSTRUCTIONS


/-! ## Streamed Command Interpreter

The two directive grammars of `sendTextMessage` (src/unnamed/part_001,
lines 373-374):

  `/\[generate_images\((\d+)\):\s*'([^']+)']/` and
  `/\[edit_image:\s*'([^']+)']/`

`String.prototype.match` finds the leftmost match; both regexes are
deterministic because each greedy class (`\d+`, `\s*`, `[^']+`) is
followed by a character it excludes.  `findGen`/`findEdit` return the
match index, the matched length and the capture groups. -/

/-- The `\d` class (ASCII digits). -/
def isAsciiDigit (c : Char) : Bool :=
  '0' ≤ c ∧ c ≤ '9'

/-- A nonempty maximal run satisfying `p` split off the front (`X+`). -/
def run1 (p : Char → Bool) (l : List Char) : Option (List Char × List Char) :=
  let (tok, rest) := l.span p
  if tok.isEmpty then none else some (tok, rest)

/-- Try the generate grammar anchored at the head of `l`; on success,
return the matched length, the digit capture and the prompt capture. -/
def matchGenAt (l : List Char) : Option (Nat × List Char × List Char) := do
  let l1 ← dropLit "[generate_images(".data l
  let (digits, l2) ← run1 isAsciiDigit l1
  let l3 ← dropLit "):".data l2
  let (_, l4) := l3.span jsWhitespace
  let l5 ← dropLit ['\''] l4
  let (prompt, l6) ← run1 (fun c => c ≠ '\'') l5
  let l7 ← dropLit "']".data l6
  pure (l.length - l7.length, digits, prompt)

/-- Try the edit grammar anchored at the head of `l`. -/
def matchEditAt (l : List Char) : Option (Nat × List Char) := do
  let l1 ← dropLit "[edit_image:".data l
  let (_, l2) := l1.span jsWhitespace
  let l3 ← dropLit ['\''] l2
  let (prompt, l4) ← run1 (fun c => c ≠ '\'') l3
  let l5 ← dropLit "']".data l4
  pure (l.length - l5.length, prompt)

/-- Leftmost match of the generate grammar: `(index, length, digits,
prompt)`. -/
def findGenAux (i : Nat) : List Char → Option (Nat × Nat × List Char × List Char)
  | [] => none
  | c :: rest =>
    match matchGenAt (c :: rest) with
    | some (len, digits, prompt) => some (i, len, digits, prompt)
    | none => findGenAux (i + 1) rest

/-- `accumulatedText.match(generateRegex)`. -/
def findGen (l : List Char) : Option (Nat × Nat × List Char × List Char) :=
  findGenAux 0 l

/-- Leftmost match of the edit grammar: `(index, length, prompt)`. -/
def findEditAux (i : Nat) : List Char → Option (Nat × Nat × List Char)
  | [] => none
  | c :: rest =>
    match matchEditAt (c :: rest) with
    | some (len, prompt) => some (i, len, prompt)
    | none => findEditAux (i + 1) rest

/-- `accumulatedText.match(editRegex)`. -/
def findEdit (l : List Char) : Option (Nat × Nat × List Char) :=
  findEditAux 0 l

/-- `s.replace(regex, '')` for a match at `i` of length `len`. -/
def removeSlice (l : List Char) (i len : Nat) : List Char :=
  l.take i ++ l.drop (i + len)

/-- `parseInt(digits, 10)` on a `\d+` capture. -/
def digitsToNat (ds : List Char) : Nat :=
  ds.foldl (fun n c => n * 10 + (c.toNat - '0'.toNat)) 0

/-- A directive handed to the image-job runner. -/
inductive Directive where
  | generateImages (count : Nat) (prompt : String)
  | editImage (prompt : String)
deriving DecidableEq, Repr

/-- One re-scan of the accumulated buffer (lines 382-401): skipped once
`commandProcessed` is set; the generate grammar is tested first, then the
edit grammar; on a match the directive text is stripped and the result
trimmed.  Returns the new buffer, the new flag, and the dispatched
directive if any. -/
def scanAccumulated (acc : List Char) (commandProcessed : Bool) :
    List Char × Bool × Option Directive :=
  if commandProcessed then (acc, true, none)
  else
    match findGen acc with
    | some (i, len, digits, prompt) =>
      (jsTrimList (removeSlice acc i len), true,
        some (Directive.generateImages (digitsToNat digits) (String.mk prompt)))
    | none =>
      match findEdit acc with
      | some (i, len, prompt) =>
        (jsTrimList (removeSlice acc i len), true,
          some (Directive.editImage (String.mk prompt)))
      | none => (acc, false, none)


/-! ## The Session Orchestrator (`StateService`, src/unnamed/part_001)

`Model` is the service: the `AppState` object plus the two connection
handles.  `voiceCloses`, `voiceConnects` and `textInits` are ghost
counters recording every voice close, voice open and text-chat
(re)creation; they change exactly where the source closes `this.session`,
succeeds in `this.client.live.connect`, or runs
`this.client.chats.create`.  Transport outcomes and `Date.now()` /
`prompt()` values enter as explicit oracle arguments. -/

/-- The text-chat handle: `this.client.chats.create` captures the seed
history and the instruction at creation time. -/
structure TextChat where
  history : List (ChatRole × String)
  systemInstruction : String
deriving DecidableEq, Repr

/-- The service-level state of `StateService`. -/
structure Model where
  state : AppState
  voiceSession : Bool
  textChat : Option TextChat
  voiceCloses : Nat := 0
  voiceConnects : Nat := 0
  textInits : Nat := 0
deriving DecidableEq, Repr

/-- `updateStatus` (lines 607-623) without its 3-second auto-clear timer. -/
def updateStatus (m : Model) (msg : String) : Model :=
  { m with state := { m.state with status := msg, error := "" } }

/-- `logEvent` (lines 646-657); the wall-clock timestamp is not modelled. -/
def logEvent (m : Model) (message : String) (type : TimelineEventType) : Model :=
  { m with state :=
    { m.state with timelineEvents := m.state.timelineEvents ++ [⟨message, type⟩] } }

/-- `updateError` (lines 624-638) without its 5-second auto-clear timer. -/
def updateError (m : Model) (msg : String) : Model :=
  logEvent { m with state := { m.state with error := msg, status := "" } }
    msg TimelineEventType.error

/-- `handleError` (lines 639-642). -/
def handleError (m : Model) (context message : String) : Model :=
  updateError m (context ++ ": " ++ message)

/-- Lines 660-671 of `updateSystemInstruction`: the store filtered by the
current selection.  `if (selectedAnalysisId)` is a truthiness test, so a
`''` id never selects. -/
def relevantAnalyses (analyses : List Analysis) (selectedAnalysisId : Option String) :
    List Analysis :=
  match selectedAnalysisId with
  | none => []
  | some id =>
    if id.isEmpty then []
    else
      match analyses.find? (fun a => a.id = id) with
      | some selected => [selected]
      | none => []

/-- `updateSystemInstruction` (lines 659-678). -/
def updateSystemInstruction (m : Model) : Model :=
  let newInstruction :=
    generateCompositeSystemInstruction
      (relevantAnalyses m.state.analyses m.state.selectedAnalysisId)
      m.state.activePersona
  { m with state := { m.state with systemInstruction := newInstruction } }

/-- The seed history passed to `chats.create` (lines 224-230):
`this.state.chatHistory.filter((msg) => msg.text).map(...)` — a
truthiness filter on the text, not an image-payload filter. -/
def seedHistory (chatHistory : List ChatMessage) : List (ChatRole × String) :=
  (chatHistory.filter (fun msg => jsTruthy msg.text)).map
    (fun msg => (msg.role, msg.text))

/-- `initializeTextChat` (lines 220-238): unconditionally replaces the
text-chat handle and clears `isChatting`. -/
def initializeTextChat (m : Model) : Model :=
  { m with
    textChat := some { history := seedHistory m.state.chatHistory,
                       systemInstruction := m.state.systemInstruction },
    state := { m.state with isChatting := false },
    textInits := m.textInits + 1 }

/-- `stopRecording` (lines 188-194). -/
def stopRecording (m : Model) : Model :=
  if !m.state.isRecording then m
  else
    let m := { m with state := { m.state with isRecording := false } }
    let m := updateStatus m "Gravação parada."
    logEvent m "Gravação parada." TimelineEventType.record

/-- `if (this.session) { await this.session.close(); this.session = null }`
(lines 199-202). -/
def closeVoice (m : Model) : Model :=
  if m.voiceSession then
    { m with voiceSession := false, voiceCloses := m.voiceCloses + 1 }
  else m

/-- `initSession` (lines 112-143): lazily opens the voice connection; the
oracle `success` selects the `try` or `catch` outcome.  The transport
callbacks (`onopen` and friends) are event-driven and outside the model. -/
def initSession (m : Model) (success : Bool) (errMessage : String) : Model :=
  if m.voiceSession then m
  else
    let m := logEvent m "Iniciando nova sessão de áudio..." TimelineEventType.connect
    if success then
      let m := { m with voiceSession := true, voiceConnects := m.voiceConnects + 1 }
      let m := updateStatus m "Sessão pronta."
      logEvent m "Sessão de áudio estabelecida." TimelineEventType.success
    else
      handleError m "Falha ao iniciar a sessão" errMessage

/-- `resetSession(false)` (lines 196-216 with `clearAnalyses = false`), the
only form reached from selection, persona and summary changes: stop
recording, close the voice session, clear search results, recompute the
instruction, recreate the text chat.  The voice connection is *not*
reopened here — `initSession` runs lazily on the next recording. -/
def resetSessionNoClear (m : Model) : Model :=
  let m := stopRecording m
  let m := closeVoice m
  let m := { m with state := { m.state with searchResults := [] } }
  let m := updateSystemInstruction m
  let m := initializeTextChat m
  updateStatus m "Sessão reiniciada."

/-- `updateVisualizerPanelVisibility` (lines 576-578):
`!!this.state.selectedAnalysisId` is truthiness, so a `''` id hides the
panel. -/
def updateVisualizerPanelVisibility (m : Model) : Model :=
  { m with state :=
    { m.state with showVisualizerPanel := jsTruthyOpt m.state.selectedAnalysisId } }

/-- `setSelectedAnalysisId` (lines 580-597): a strict no-op when the
selection is unchanged; otherwise set the id, clear the chat history and
the generated-image buffer, recompute the instruction, rebuild the voice
side (`resetSession(false)`) and recreate the text chat — note the text
chat is created once inside `resetSession` and then a second time. -/
def setSelectedAnalysisId (m : Model) (id : Option String) : Model :=
  if m.state.selectedAnalysisId = id then m
  else
    let m := { m with state := { m.state with
      selectedAnalysisId := id, chatHistory := [], lastGeneratedImages := [] } }
    let m := updateVisualizerPanelVisibility m
    let m := updateSystemInstruction m
    let m := resetSessionNoClear m
    initializeTextChat m

/-- `resetSession` (lines 196-216) in full; with `clearAnalyses` the source
calls `setSelectedAnalysisId(null)` *before* applying the state updates
that empty the store and the persona. -/
def resetSession (m : Model) (clearAnalyses : Bool) : Model :=
  if clearAnalyses then
    let m := stopRecording m
    let m := closeVoice m
    let m := logEvent m "Todos os contextos foram limpos." TimelineEventType.info
    let m := setSelectedAnalysisId m none
    let m := { m with state := { m.state with
      searchResults := [], analyses := [], activePersona := none } }
    let m := updateSystemInstruction m
    let m := initializeTextChat m
    updateStatus m "Sessão reiniciada."
  else resetSessionNoClear m

/-- `setPersona` (lines 599-605). -/
def setPersona (m : Model) (persona : Option String) : Model :=
  let m := { m with state := { m.state with
    activePersona := persona, chatHistory := [] } }
  let m := logEvent m ("Persona alterada para: " ++ jsOrDefault persona "Padrão")
    TimelineEventType.info
  let m := updateSystemInstruction m
  let m := resetSessionNoClear m
  initializeTextChat m

/-- `newAnalyses[0]?.id || null` / `sessionToLoad.analyses[0]?.id || null`:
optional chaining plus `||` coerces a missing head *and* a `''` id to
`null`. -/
def jsFirstId (analyses : List Analysis) : Option String :=
  match analyses.head? with
  | none => none
  | some a => if a.id.isEmpty then none else some a.id

/-- `removeAnalysis` (lines 501-513). -/
def removeAnalysis (m : Model) (idToRemove : String) : Model :=
  let newAnalyses := m.state.analyses.filter (fun a => ¬(a.id = idToRemove))
  let newSelectedId :=
    if m.state.selectedAnalysisId = some idToRemove then jsFirstId newAnalyses
    else m.state.selectedAnalysisId
  let m := { m with state := { m.state with analyses := newAnalyses } }
  let m := logEvent m "Contexto removido." TimelineEventType.info
  setSelectedAnalysisId m newSelectedId

/-- `saveCurrentSession` (lines 702-723).  `promptResult` is the value the
`prompt()` dialog returned (`none` = cancelled) and `newId` the
`Date.now().toString()` identifier; `localStorage` persistence is
external. -/
def saveCurrentSession (m : Model) (promptResult : Option String) (newId : String) :
    Model :=
  let title := jsOrDefault promptResult "Sessão Salva"
  let newSession : SavedSession :=
    { id := newId
      title := title
      analyses := m.state.analyses
      timelineEvents := m.state.timelineEvents
      systemInstruction := m.state.systemInstruction
      searchResults := m.state.searchResults
      activePersona := m.state.activePersona }
  let m := { m with state :=
    { m.state with savedSessions := newSession :: m.state.savedSessions } }
  logEvent m ("Sessão \"" ++ title ++ "\" salva.") TimelineEventType.history

/-- `loadSession` (lines 725-743): restore the saved fields by direct
mutation, then run the full context switch through
`setSelectedAnalysisId` on the first analysis's id. -/
def loadSession (m : Model) (sessionId : String) : Model :=
  match m.state.savedSessions.find? (fun s => s.id = sessionId) with
  | none => m
  | some sessionToLoad =>
    let m := { m with state := { m.state with
      analyses := sessionToLoad.analyses
      timelineEvents := sessionToLoad.timelineEvents
      searchResults := sessionToLoad.searchResults
      activePersona := sessionToLoad.activePersona
      showHistoryModal := false } }
    let selectedId := jsFirstId sessionToLoad.analyses
    let m := setSelectedAnalysisId m selectedId
    logEvent m ("Sessão \"" ++ sessionToLoad.title ++ "\" carregada.")
      TimelineEventType.history


/-! ## `sendTextMessage` and the image-job runner

The streaming transport is an oracle: `chunks` is the sequence a
successfully completed `sendMessageStream` yielded (each with optional
text and grounding metadata); the mid-stream `catch` path is outside the
model.  Dispatched directives are returned as effects — in the source
they start fire-and-forget asynchronous jobs (`_triggerImageGeneration`,
`_triggerImageEditing`), modelled separately below. -/

/-- One streamed chunk: `chunk.text` and the grounding chunks already
shaped to `{uri, title}` pairs (title possibly empty). -/
structure Chunk where
  text : Option String := none
  grounding : List SearchResult := []
deriving DecidableEq, Repr

/-- The result of one `sendTextMessage` call: the new service state, the
directives dispatched to the image-job runner, and the message handed to
`sendMessageStream` (`none` when the guard returned early). -/
structure TurnResult where
  model : Model
  dispatched : List Directive
  sentMessage : Option String
deriving DecidableEq, Repr

/-- `lastMessage.text = accumulatedText` guarded by
`lastMessage && lastMessage.role === 'model'` (lines 403-408). -/
def updateLastModelText (chatHistory : List ChatMessage) (text : String) :
    List ChatMessage :=
  match chatHistory.getLast? with
  | none => chatHistory
  | some lastMessage =>
    if lastMessage.role = ChatRole.model then
      chatHistory.dropLast ++ [{ lastMessage with text := text }]
    else chatHistory

/-- `allSearchResults.set(uri, {uri, title: title || uri})` over a JS
`Map`: an existing key keeps its position and takes the new value, a new
key appends. -/
def mapSetResult (results : List SearchResult) (r : SearchResult) :
    List SearchResult :=
  if results.any (fun x => x.uri = r.uri) then
    results.map (fun x => if x.uri = r.uri then r else x)
  else results ++ [r]

/-- The loop state of the `for await` over the stream (lines 370-423). -/
structure LoopState where
  chatHistory : List ChatMessage
  accumulated : List Char
  commandProcessed : Bool
  dispatched : List Directive
  results : List SearchResult
deriving DecidableEq, Repr

/-- One iteration of the stream loop (lines 377-423): append truthy chunk
text, re-scan the buffer unless a command was already processed, patch the
trailing model message, then fold the grounding chunks into the result
map. -/
def processChunk (st : LoopState) (chunk : Chunk) : LoopState :=
  let st :=
    match chunk.text with
    | none => st
    | some chunkText =>
      if chunkText.isEmpty then st
      else
        let acc := st.accumulated ++ chunkText.data
        let (acc, commandProcessed, dispatchedNow) :=
          scanAccumulated acc st.commandProcessed
        { st with
          accumulated := acc
          commandProcessed := commandProcessed
          dispatched := st.dispatched ++ dispatchedNow.toList
          chatHistory := updateLastModelText st.chatHistory (String.mk acc) }
  let newResults :=
    chunk.grounding.foldl
      (fun rs g => mapSetResult rs { uri := g.uri, title := jsOrDefaultStr g.title g.uri })
      st.results
  { st with results := newResults }

/-- `sendTextMessage` (lines 350-442) for a successfully completed stream.
The guard (line 351) returns before any state change or transport call. -/
def sendTextMessage (m : Model) (message : String) (chunks : List Chunk) :
    TurnResult :=
  if m.textChat = none ∨ m.state.isChatting ∨ (jsTrim message).isEmpty then
    { model := m, dispatched := [], sentMessage := none }
  else
    let userMessage : ChatMessage := { role := ChatRole.user, text := message }
    let m := { m with state := { m.state with
      isChatting := true
      chatHistory := m.state.chatHistory ++ [userMessage]
      searchResults := [] } }
    let modelMessage : ChatMessage := { role := ChatRole.model, text := "" }
    let m := { m with state := { m.state with
      chatHistory := m.state.chatHistory ++ [modelMessage] } }
    let st0 : LoopState :=
      { chatHistory := m.state.chatHistory
        accumulated := []
        commandProcessed := false
        dispatched := []
        results := [] }
    let stF := chunks.foldl processChunk st0
    let m := { m with state := { m.state with
      chatHistory := stF.chatHistory
      isChatting := false
      searchResults := stF.results } }
    { model := m, dispatched := stF.dispatched, sentMessage := some message }

/-- The error suffix of a local edit-precondition failure (line 287). -/
def editErrorNoImages : String :=
  "\n\n**Erro:** Não há nenhuma imagem recente para editar."

/-- One part of the mixed text/image edit response. -/
structure RespPart where
  text : Option String := none
  inlineData : Option (String × String) := none
deriving DecidableEq, Repr

/-- The `for (const part of response...parts)` fold (lines 320-327):
truthy text appends to the narration, else a present `inlineData` replaces
the pending image `(data, mimeType)`. -/
def foldEditParts (parts : List RespPart) : String × Option (String × String) :=
  parts.foldl
    (fun acc part =>
      match part.text with
      | some t =>
        if !t.isEmpty then (acc.1 ++ t, acc.2)
        else
          match part.inlineData with
          | some d => (acc.1, some d)
          | none => acc
      | none =>
        match part.inlineData with
        | some d => (acc.1, some d)
        | none => acc)
    ("", none)

/-- `_triggerImageEditing` (lines 282-348).  `response` is the edit
transport's outcome (`Except.error` = the `catch` path); the returned
`Bool` records whether the edit transport (`generateContent`) was invoked
at all.  With an empty "last generated" buffer the transport is never
reached: the error suffix is appended to the trailing model message and
nothing else changes. -/
def triggerImageEditing (m : Model) (response : Except String (List RespPart)) :
    Model × Bool :=
  match m.state.chatHistory.getLast? with
  | none => (m, false)
  | some lastMessage0 =>
    if ¬(lastMessage0.role = ChatRole.model) then (m, false)
    else if m.state.lastGeneratedImages.isEmpty then
      let lastMessage := { lastMessage0 with
        text := lastMessage0.text ++ editErrorNoImages }
      ({ m with state := { m.state with
        chatHistory := m.state.chatHistory.dropLast ++ [lastMessage] } }, false)
    else
      let lastMessage1 := { lastMessage0 with
        isLoadingImages := some true, imageCount := some 1 }
      let m := { m with state := { m.state with
        chatHistory := m.state.chatHistory.dropLast ++ [lastMessage1] } }
      match response with
      | Except.error errMessage =>
        let lastMessage2 := { lastMessage1 with
          isLoadingImages := some false
          text := lastMessage1.text ++ "\n\n**Erro ao editar imagem:** " ++ errMessage }
        let m := { m with state := { m.state with
          chatHistory := m.state.chatHistory.dropLast ++ [lastMessage2] } }
        (handleError m "Falha na edição de imagem" errMessage, true)
      | Except.ok parts =>
        let (newText, inline) := foldEditParts parts
        let lastMessage2 := { lastMessage1 with
          isLoadingImages := some false
          text := jsOrDefaultStr newText "Aqui está a imagem editada." }
        match inline with
        | some (newBase64, mimeType) =>
          if ¬newBase64.isEmpty then
            let newImageUrl := "data:" ++ mimeType ++ ";base64," ++ newBase64
            let lastMessage3 := { lastMessage2 with imageUrls := some [newImageUrl] }
            ({ m with state := { m.state with
              lastGeneratedImages := [newBase64]
              chatHistory := m.state.chatHistory.dropLast ++ [lastMessage3] } }, true)
          else
            let lastMessage3 := { lastMessage2 with
              text := lastMessage2.text ++ "\n\n**Erro:** A edição não retornou uma nova imagem." }
            ({ m with state := { m.state with
              chatHistory := m.state.chatHistory.dropLast ++ [lastMessage3] } }, true)
        | none =>
          let lastMessage3 := { lastMessage2 with
            text := lastMessage2.text ++ "\n\n**Erro:** A edição não retornou uma nova imagem." }
          ({ m with state := { m.state with
            chatHistory := m.state.chatHistory.dropLast ++ [lastMessage3] } }, true)


/-! ## Verbatim containment

`StrContains s pat` says `pat` occurs verbatim as a substring of `s`;
the composer claims are stated with it. -/

/-- `pat` occurs verbatim inside `s`. -/
def StrContains (s pat : String) : Prop :=
  List.IsInfix pat.data s.data

instance (s pat : String) : Decidable (StrContains s pat) :=
  inferInstanceAs (Decidable (List.IsInfix pat.data s.data))

theorem strContains_refl (x : String) : StrContains x x :=
  ⟨[], [], by simp⟩

theorem strContains_left {a x : String} (b : String) (h : StrContains a x) :
    StrContains (a ++ b) x := by
  obtain ⟨p, q, hpq⟩ := h
  exact ⟨p, q ++ b.data, by rw [String.data_append, ← hpq]; simp⟩

theorem strContains_right {b x : String} (a : String) (h : StrContains b x) :
    StrContains (a ++ b) x := by
  obtain ⟨p, q, hpq⟩ := h
  exact ⟨a.data ++ p, q, by rw [String.data_append, ← hpq]; simp⟩

/-- Every single-analysis template embeds the title verbatim. -/
theorem single_contains_title (a : Analysis) :
    StrContains (getSingleSystemInstruction a) a.title := by
  unfold getSingleSystemInstruction
  split_ifs <;>
    first
      | exact strContains_left _ (strContains_left _ (strContains_left _
          (strContains_left _ (strContains_right _ (strContains_refl _)))))
      | exact strContains_left _ (strContains_left _ (strContains_left _
          (strContains_left _ (strContains_left _
            (strContains_right _ (strContains_refl _))))))

/-- Every single-analysis template except the workflow one embeds the raw
summary verbatim (the analyst template does so even for a workflow-typed
analysis). -/
theorem single_contains_summary (a : Analysis)
    (h : a.type ≠ AnalysisType.workflow) :
    StrContains (getSingleSystemInstruction a) a.summary := by
  unfold getSingleSystemInstruction
  split_ifs with h1 h2 h3
  · exact strContains_left _ (strContains_left _
      (strContains_right _ (strContains_refl _)))
  · exact strContains_left _ (strContains_left _ (strContains_left _
      (strContains_right _ (strContains_refl _))))
  · exact strContains_left _ (strContains_left _ (strContains_left _
      (strContains_right _ (strContains_refl _))))
  · exact strContains_left _ (strContains_left _ (strContains_left _
      (strContains_right _ (strContains_refl _))))

/-- The single-analysis workflow template embeds the decoded summary where
the raw summary would stand. -/
theorem single_workflow_contains_decoded (a : Analysis)
    (hw : a.type = AnalysisType.workflow)
    (hp : ¬a.persona = AnalysisPersona.analyst) :
    StrContains (getSingleSystemInstruction a) (decodeWorkflowSingle a.summary) := by
  unfold getSingleSystemInstruction
  rw [if_neg, if_neg, if_neg, if_pos hw]
  · exact strContains_left _ (strContains_left _ (strContains_left _
      (strContains_right _ (strContains_refl _))))
  · simp [hw]
  · simp [hw]
  · exact hp

/-- Each labelled source block embeds the title verbatim and, for a
non-workflow analysis, the raw summary; a workflow analysis contributes
its decoded summary instead. -/
theorem multiSourceBlocks_contains (l : List Analysis) :
    ∀ (i : Nat) (a : Analysis), a ∈ l →
      StrContains (multiSourceBlocks i l) a.title ∧
      (a.type ≠ AnalysisType.workflow →
        StrContains (multiSourceBlocks i l) a.summary) ∧
      (a.type = AnalysisType.workflow →
        StrContains (multiSourceBlocks i l) (decodeWorkflowMulti a.summary)) := by
  induction l with
  | nil => intro i a ha; exact absurd ha (List.not_mem_nil a)
  | cons b rest ih =>
    intro i a ha
    rcases List.mem_cons.mp ha with rfl | ha'
    · refine ⟨?_, ?_, ?_⟩
      · show StrContains (_ ++ _ ++ _ ++ a.title ++ _ ++ _ ++ _ ++ _ ++ _ ++ _ ++ _ ++ _ ++ _) a.title
        exact strContains_left _ (strContains_left _ (strContains_left _
          (strContains_left _ (strContains_left _ (strContains_left _
          (strContains_left _ (strContains_left _ (strContains_left _
          (strContains_right _ (strContains_refl _))))))))))
      · intro hnw
        show StrContains (_ ++ _ ++ _ ++ _ ++ _ ++ _ ++ _ ++
          (if a.type = AnalysisType.workflow then decodeWorkflowMulti a.summary
           else a.summary) ++ _ ++ _ ++ _ ++ _ ++ _) a.summary
        rw [if_neg hnw]
        exact strContains_left _ (strContains_left _ (strContains_left _
          (strContains_left _ (strContains_left _
          (strContains_right _ (strContains_refl _))))))
      · intro hw
        show StrContains (_ ++ _ ++ _ ++ _ ++ _ ++ _ ++ _ ++
          (if a.type = AnalysisType.workflow then decodeWorkflowMulti a.summary
           else a.summary) ++ _ ++ _ ++ _ ++ _ ++ _) (decodeWorkflowMulti a.summary)
        rw [if_pos hw]
        exact strContains_left _ (strContains_left _ (strContains_left _
          (strContains_left _ (strContains_left _
          (strContains_right _ (strContains_refl _))))))
    · have h := ih (i + 1) a ha'
      refine ⟨strContains_right _ h.1, fun hnw => strContains_right _ (h.2.1 hnw),
        fun hw => strContains_right _ (h.2.2 hw)⟩


/-! ## Concrete fixtures used by witnesses and counterexamples -/

/-- A plain url-typed analysis. -/
def sampleUrlAnalysis : Analysis :=
  { id := "a", title := "TITLE-A", source := "src-a", summary := "SUMMARY-A",
    type := AnalysisType.url, persona := AnalysisPersona.assistant }

/-- A github-typed analysis. -/
def sampleGithubAnalysis : Analysis :=
  { id := "b", title := "TITLE-B", source := "src-b", summary := "SUMMARY-B",
    type := AnalysisType.github, persona := AnalysisPersona.assistant }

/-- A workflow analysis whose summary is not valid JSON. -/
def sampleWorkflowAnalysis : Analysis :=
  { id := "w", title := "WTITLE", source := "src-w", summary := "XYZQW",
    type := AnalysisType.workflow, persona := AnalysisPersona.assistant }

set_option maxRecDepth 8000

/-- A text whose first character is `Q` fails JSON parsing at once: the
number fallback rejects `Q` before consuming any fuel. -/
theorem parseJsonValue_headQ (fuel : Nat) (rest : List Char) :
    parseJsonValue (Nat.succ fuel) ('Q' :: rest) = none := rfl

/-- A workflow analysis whose summary is not valid JSON and is longer
(3000 characters) than the whole instruction the composer can build from
it. -/
def bigWorkflowAnalysis : Analysis :=
  { id := "w2", title := "WT", source := "src-w2",
    summary := String.mk (List.replicate 3000 'Q'),
    type := AnalysisType.workflow, persona := AnalysisPersona.assistant }

/-- C5: the claim fails on workflow analyses — a single workflow analysis
with an unparsable summary produces an instruction that does not contain
the summary text verbatim: the decode error placeholder stands in its
place, and indeed the whole instruction (2770 characters) is shorter than
this 3000-character summary. -/
theorem c5_counterexample :
    bigWorkflowAnalysis.type = AnalysisType.workflow ∧
    ¬ StrContains (generateCompositeSystemInstruction [bigWorkflowAnalysis] none)
      bigWorkflowAnalysis.summary := by
  refine ⟨rfl, ?_⟩
  intro h
  have hlen := List.IsInfix.length_le h
  have hj : jsonParse bigWorkflowAnalysis.summary = none := by
    show jsonParse (String.mk (List.replicate 3000 'Q')) = none
    unfold jsonParse
    rw [← Nat.succ_eq_add_one,
      show (String.mk (List.replicate 3000 'Q')).data = 'Q' :: List.replicate 2999 'Q' from
        rfl,
      parseJsonValue_headQ]
    rfl
  have hdec : decodeWorkflowSingle bigWorkflowAnalysis.summary = workflowErrorSingle := by
    unfold decodeWorkflowSingle
    rw [hj]
  have hsingle : getSingleSystemInstruction bigWorkflowAnalysis =
      workflowTpl0 ++ bigWorkflowAnalysis.title ++ workflowTpl1 ++ workflowErrorSingle ++
        workflowTpl2 ++ enrichmentInstruction ++ detailInstruction := by
    unfold getSingleSystemInstruction
    rw [if_neg, if_neg, if_neg,
      if_pos (show bigWorkflowAnalysis.type = AnalysisType.workflow from rfl), hdec]
    · decide
    · decide
    · decide
  have hs : (generateCompositeSystemInstruction [bigWorkflowAnalysis] none).data.length =
      2770 := by
    show (personaPreamble none ++ getSingleSystemInstruction bigWorkflowAnalysis ++
      TOOL_INSTRUCTIONS).data.length = 2770
    rw [hsingle, show personaPreamble none = "" from rfl]
    simp only [String.data_append, List.length_append]
    rw [show ("" : String).data.length = 0 from rfl,
      show workflowTpl0.data.length = 68 from rfl,
      show bigWorkflowAnalysis.title.data.length = 2 from rfl,
      show workflowTpl1.data.length = 115 from rfl,
      show workflowErrorSingle.data.length = 59 from rfl,
      show workflowTpl2.data.length = 292 from rfl,
      show enrichmentInstruction.data.length = 456 from rfl,
      show detailInstruction.data.length = 347 from rfl,
      show TOOL_INSTRUCTIONS.data.length = 1431 from rfl]
  have hpat : bigWorkflowAnalysis.summary.data.length = 3000 := by
    show (List.replicate 3000 'Q').length = 3000
    exact List.length_replicate 3000 'Q'
  rw [hpat, hs] at hlen
  exact absurd hlen (by decide)

/-- C5 (amended): the composed instruction contains, verbatim, the title of
every supplied analysis, and the summary of every supplied analysis whose
type is not `workflow`; workflow summaries are embedded through the
defensive decode instead of verbatim.  The zero case is vacuous: an empty
list supplies no analysis. -/
theorem c5_composite_contains_contents (analyses : List Analysis)
    (persona : Option String) (a : Analysis) (ha : a ∈ analyses) :
    StrContains (generateCompositeSystemInstruction analyses persona) a.title ∧
    (a.type ≠ AnalysisType.workflow →
      StrContains (generateCompositeSystemInstruction analyses persona) a.summary) := by
  cases analyses with
  | nil => exact absurd ha (List.not_mem_nil a)
  | cons b tl =>
    cases tl with
    | nil =>
      have hab : a = b := by simpa using ha
      subst hab
      constructor
      · show StrContains
          (personaPreamble persona ++ getSingleSystemInstruction a ++ TOOL_INSTRUCTIONS)
          a.title
        exact strContains_left _ (strContains_right _ (single_contains_title a))
      · intro h
        show StrContains
          (personaPreamble persona ++ getSingleSystemInstruction a ++ TOOL_INSTRUCTIONS)
          a.summary
        exact strContains_left _ (strContains_right _ (single_contains_summary a h))
    | cons c rest =>
      have h := multiSourceBlocks_contains (b :: c :: rest) 0 a ha
      constructor
      · show StrContains
          (personaPreamble persona ++ multiIntro ++ multiSourceBlocks 0 (b :: c :: rest) ++
            multiOutro ++ TOOL_INSTRUCTIONS) a.title
        exact strContains_left _ (strContains_left _ (strContains_right _ h.1))
      · intro hnw
        show StrContains
          (personaPreamble persona ++ multiIntro ++ multiSourceBlocks 0 (b :: c :: rest) ++
            multiOutro ++ TOOL_INSTRUCTIONS) a.summary
        exact strContains_left _ (strContains_left _ (strContains_right _ (h.2.1 hnw)))

/-- C5 witness: the amended theorem applied to one concrete non-workflow
analysis. -/
theorem c5_witness :
    (sampleGithubAnalysis ∈ [sampleGithubAnalysis] ∧
      sampleGithubAnalysis.type ≠ AnalysisType.workflow) ∧
    StrContains (generateCompositeSystemInstruction [sampleGithubAnalysis] none)
      sampleGithubAnalysis.title ∧
    StrContains (generateCompositeSystemInstruction [sampleGithubAnalysis] none)
      sampleGithubAnalysis.summary := by
  refine ⟨⟨List.mem_singleton_self _, by decide⟩, ?_, ?_⟩
  · exact (c5_composite_contains_contents [sampleGithubAnalysis] none
      sampleGithubAnalysis (List.mem_singleton_self _)).1
  · exact (c5_composite_contains_contents [sampleGithubAnalysis] none
      sampleGithubAnalysis (List.mem_singleton_self _)).2 (by decide)

/-- A workflow analysis whose summary is a valid JSON envelope but whose
`summary_base64` payload is not decodable base64. -/
def sampleB64FailAnalysis : Analysis :=
  { id := "w3", title := "WB-TITLE", source := "src-w3",
    summary := "\x7b\"summary_base64\": \"!!!\"\x7d",
    type := AnalysisType.workflow, persona := AnalysisPersona.assistant }

/-- C6: the composer is a total Lean function by construction (every
throwing step of the source is modelled as an `Option`/`Except` failure
that the surrounding `catch` converts to a placeholder), and on a workflow
decode failure of either class — a summary that is not valid JSON, or a
valid envelope whose truthy `summary_base64` payload fails the
base64/UTF-8 decode — the output embeds the literal error placeholder of
the corresponding branch in place of the summary. -/
theorem c6_composer_total_with_placeholder (persona : Option String) (a : Analysis)
    (hw : a.type = AnalysisType.workflow)
    (hp : jsonParse a.summary = none ∨
      ∃ parsed v64, jsonParse a.summary = some parsed ∧
        jsProp parsed "summary_base64" = some v64 ∧
        jsTruthyVal v64 = true ∧
        base64ToString (jsValToString (v64.getD JsValue.jnull)) = none) :
    (¬a.persona = AnalysisPersona.analyst →
      StrContains (generateCompositeSystemInstruction [a] persona) workflowErrorSingle) ∧
    (∀ (b : Analysis) (rest : List Analysis),
      StrContains (generateCompositeSystemInstruction (a :: b :: rest) persona)
        workflowErrorMulti) := by
  have hdecS : decodeWorkflowSingle a.summary = workflowErrorSingle := by
    rcases hp with hp | ⟨parsed, v64, hjp, hprop, htru, hfail⟩
    · unfold decodeWorkflowSingle
      rw [hp]
    · have hfail' :
          (atobBytes (jsValToString (v64.getD JsValue.jnull))).bind bytesToUtf8String =
            none := hfail
      simp only [decodeWorkflowSingle, hjp, hprop]
      rw [if_pos htru, hfail']
  have hdecM : decodeWorkflowMulti a.summary = workflowErrorMulti := by
    rcases hp with hp | ⟨parsed, v64, hjp, hprop, htru, hfail⟩
    · unfold decodeWorkflowMulti
      rw [hp]
    · simp only [decodeWorkflowMulti, hjp, hprop]
      rw [if_pos htru, hfail]
  constructor
  · intro hpa
    have hsingle := single_workflow_contains_decoded a hw hpa
    rw [hdecS] at hsingle
    show StrContains
      (personaPreamble persona ++ getSingleSystemInstruction a ++ TOOL_INSTRUCTIONS)
      workflowErrorSingle
    exact strContains_left _ (strContains_right _ hsingle)
  · intro b rest
    have hblocks := (multiSourceBlocks_contains (a :: b :: rest) 0 a
      (List.mem_cons_self a _)).2.2 hw
    rw [hdecM] at hblocks
    show StrContains
      (personaPreamble persona ++ multiIntro ++ multiSourceBlocks 0 (a :: b :: rest) ++
        multiOutro ++ TOOL_INSTRUCTIONS) workflowErrorMulti
    exact strContains_left _ (strContains_left _ (strContains_right _ hblocks))

/-- C6 witness: the theorem applied to concrete inputs from both failure
classes — the unparsable-summary analysis and the undecodable-payload
analysis — in the single and the two-analysis composition. -/
theorem c6_witness :
    (sampleWorkflowAnalysis.type = AnalysisType.workflow ∧
      jsonParse sampleWorkflowAnalysis.summary = none ∧
      ¬sampleWorkflowAnalysis.persona = AnalysisPersona.analyst) ∧
    (sampleB64FailAnalysis.type = AnalysisType.workflow ∧
      jsonParse sampleB64FailAnalysis.summary =
        some (JsValue.jobj [("summary_base64", JsValue.jstr "!!!")]) ∧
      base64ToString "!!!" = none) ∧
    StrContains (generateCompositeSystemInstruction [sampleWorkflowAnalysis] none)
      workflowErrorSingle ∧
    StrContains (generateCompositeSystemInstruction [sampleB64FailAnalysis] none)
      workflowErrorSingle ∧
    StrContains
      (generateCompositeSystemInstruction [sampleB64FailAnalysis, sampleUrlAnalysis] none)
      workflowErrorMulti := by
  refine ⟨⟨rfl, by rfl, by decide⟩, ⟨rfl, by rfl, by rfl⟩, ?_, ?_, ?_⟩
  · exact (c6_composer_total_with_placeholder none sampleWorkflowAnalysis rfl
      (Or.inl (by rfl))).1 (by decide)
  · exact (c6_composer_total_with_placeholder none sampleB64FailAnalysis rfl
      (Or.inr ⟨JsValue.jobj [("summary_base64", JsValue.jstr "!!!")],
        some (JsValue.jstr "!!!"), by rfl, by rfl, by rfl, by rfl⟩)).1 (by decide)
  · exact (c6_composer_total_with_placeholder none sampleB64FailAnalysis rfl
      (Or.inr ⟨JsValue.jobj [("summary_base64", JsValue.jstr "!!!")],
        some (JsValue.jstr "!!!"), by rfl, by rfl, by rfl, by rfl⟩)).2 sampleUrlAnalysis []


/-! ## Frame lemmas for the context-switch operations -/

/-- C1's own wording of the selection filter: the singleton holding the
selected analysis when the selected id is non-null and present in the
store, the empty list otherwise.  `relevantAnalyses` (the code) differs
only on the JavaScript-truthiness corner of a selected `''` id. -/
def claimSelection (analyses : List Analysis) (selectedAnalysisId : Option String) :
    List Analysis :=
  match selectedAnalysisId with
  | none => []
  | some id =>
    match analyses.find? (fun a => a.id = id) with
    | some selected => [selected]
    | none => []

/-- On a store whose ids are all non-empty — every id the running program
creates is a non-empty `Date.now().toString()` — the code's truthiness
filter agrees with the claim's filter. -/
theorem relevantAnalyses_eq_claimSelection (analyses : List Analysis)
    (sel : Option String) (h : ∀ a ∈ analyses, ¬a.id = "") :
    relevantAnalyses analyses sel = claimSelection analyses sel := by
  cases sel with
  | none => rfl
  | some id =>
    simp only [relevantAnalyses, claimSelection]
    by_cases hid : id.isEmpty
    · rw [if_pos hid]
      have hnone : analyses.find? (fun a => a.id = id) = none := by
        rw [List.find?_eq_none]
        intro a ha
        simp only [decide_eq_true_eq]
        intro heq
        exact h a ha (heq.trans ((String.isEmpty_iff id).mp hid))
      rw [hnone]
    · rw [if_neg hid]

/-- `setSelectedAnalysisId` on an unchanged selection is a strict no-op. -/
theorem setSelectedAnalysisId_noop (m : Model) (id : Option String)
    (h : m.state.selectedAnalysisId = id) : setSelectedAnalysisId m id = m := by
  unfold setSelectedAnalysisId
  rw [if_pos h]

/-- The observable effect of `setSelectedAnalysisId` on a changed
selection: the new id is installed, chat history and the generated-image
buffer are cleared, the instruction is recomputed from the unchanged store
and persona, the voice session ends closed (and is not reopened), and the
text chat is re-created twice — once inside `resetSession(false)` and once
after it. -/
theorem setSelectedAnalysisId_changed (m : Model) (id : Option String)
    (h : ¬m.state.selectedAnalysisId = id) :
    (setSelectedAnalysisId m id).state.selectedAnalysisId = id ∧
    (setSelectedAnalysisId m id).state.chatHistory = [] ∧
    (setSelectedAnalysisId m id).state.lastGeneratedImages = [] ∧
    (setSelectedAnalysisId m id).state.analyses = m.state.analyses ∧
    (setSelectedAnalysisId m id).state.activePersona = m.state.activePersona ∧
    (setSelectedAnalysisId m id).state.savedSessions = m.state.savedSessions ∧
    (setSelectedAnalysisId m id).state.systemInstruction =
      generateCompositeSystemInstruction (relevantAnalyses m.state.analyses id)
        m.state.activePersona ∧
    (setSelectedAnalysisId m id).voiceSession = false ∧
    (setSelectedAnalysisId m id).voiceCloses =
      m.voiceCloses + (if m.voiceSession then 1 else 0) ∧
    (setSelectedAnalysisId m id).voiceConnects = m.voiceConnects ∧
    (setSelectedAnalysisId m id).textInits = m.textInits + 2 := by
  unfold setSelectedAnalysisId updateVisualizerPanelVisibility updateSystemInstruction
    resetSessionNoClear stopRecording closeVoice initializeTextChat updateStatus logEvent
  rw [if_neg h]
  by_cases hr : m.state.isRecording <;> by_cases hv : m.voiceSession <;>
    simp [hr, hv, updateSystemInstruction, initializeTextChat, updateStatus, logEvent,
      stopRecording, closeVoice]

/-- The observable effect of `setPersona`: the persona is installed, chat
history cleared, the instruction recomputed from the unchanged store and
selection, and the connections rebuilt as in a selection change. -/
theorem setPersona_spec (m : Model) (p : Option String) :
    (setPersona m p).state.activePersona = p ∧
    (setPersona m p).state.chatHistory = [] ∧
    (setPersona m p).state.analyses = m.state.analyses ∧
    (setPersona m p).state.selectedAnalysisId = m.state.selectedAnalysisId ∧
    (setPersona m p).state.systemInstruction =
      generateCompositeSystemInstruction
        (relevantAnalyses m.state.analyses m.state.selectedAnalysisId) p := by
  unfold setPersona updateSystemInstruction resetSessionNoClear stopRecording
    closeVoice initializeTextChat updateStatus logEvent
  by_cases hr : m.state.isRecording <;> by_cases hv : m.voiceSession <;>
    simp [hr, hv, updateSystemInstruction, initializeTextChat, updateStatus, logEvent,
      stopRecording, closeVoice]


/-! ## C1: the derived instruction is never stale -/

/-- The two instruction-affecting intent operations C1 quantifies over. -/
inductive ContextOp where
  | select (id : Option String)
  | persona (p : Option String)
deriving DecidableEq, Repr

/-- Apply one operation. -/
def applyContextOp (m : Model) : ContextOp → Model
  | ContextOp.select id => setSelectedAnalysisId m id
  | ContextOp.persona p => setPersona m p

/-- Apply a call sequence left to right. -/
def applyContextOps (m : Model) (ops : List ContextOp) : Model :=
  ops.foldl applyContextOp m

/-- C1's invariant: the derived instruction in state equals the composer
applied to the store filtered by the current selection (the claim's own
filter) and the active persona. -/
def InstructionFresh (m : Model) : Prop :=
  m.state.systemInstruction =
    generateCompositeSystemInstruction
      (claimSelection m.state.analyses m.state.selectedAnalysisId)
      m.state.activePersona

/-- Neither operation touches the store. -/
theorem applyContextOp_analyses (m : Model) (op : ContextOp) :
    (applyContextOp m op).state.analyses = m.state.analyses := by
  cases op with
  | select id =>
    by_cases hg : m.state.selectedAnalysisId = id
    · rw [applyContextOp, setSelectedAnalysisId_noop m id hg]
    · exact (setSelectedAnalysisId_changed m id hg).2.2.2.1
  | persona p => exact (setPersona_spec m p).2.2.1

/-- C1 (confirmed, on stores whose ids are non-empty as the program
creates them): for every sequence of `setSelectedAnalysisId`/`setPersona`
calls starting from a state whose derived instruction is fresh, the
derived instruction remains the composite of the claim-filtered store and
the active persona after every call — it is never stale. -/
theorem c1_instruction_never_stale (m : Model) (ops : List ContextOp)
    (hids : ∀ a ∈ m.state.analyses, ¬a.id = "")
    (hfresh : InstructionFresh m) :
    InstructionFresh (applyContextOps m ops) := by
  induction ops generalizing m with
  | nil => exact hfresh
  | cons op rest ih =>
    have hstep : InstructionFresh (applyContextOp m op) := by
      cases op with
      | select id =>
        by_cases hg : m.state.selectedAnalysisId = id
        · show InstructionFresh (setSelectedAnalysisId m id)
          rw [setSelectedAnalysisId_noop m id hg]
          exact hfresh
        · have hs := setSelectedAnalysisId_changed m id hg
          show InstructionFresh (setSelectedAnalysisId m id)
          unfold InstructionFresh
          rw [hs.1, hs.2.2.2.1, hs.2.2.2.2.1, hs.2.2.2.2.2.2.1,
            relevantAnalyses_eq_claimSelection m.state.analyses id hids]
      | persona p =>
        have hs := setPersona_spec m p
        show InstructionFresh (setPersona m p)
        unfold InstructionFresh
        rw [hs.1, hs.2.2.1, hs.2.2.2.1, hs.2.2.2.2,
          relevantAnalyses_eq_claimSelection m.state.analyses m.state.selectedAnalysisId hids]
    have hids' : ∀ a ∈ (applyContextOp m op).state.analyses, ¬a.id = "" := by
      rw [applyContextOp_analyses m op]
      exact hids
    exact ih (applyContextOp m op) hids' hstep

/-- A model in the constructor's no-selection shape with one stored
analysis, its instruction freshly computed. -/
def sampleFreshModel : Model :=
  updateSystemInstruction
    { state :=
        { analyses := [sampleUrlAnalysis]
          selectedAnalysisId := none
          processingState := { active := false, step := "", progress := 0 }
          isRecording := false
          status := ""
          error := ""
          searchResults := []
          systemInstruction := ""
          timelineEvents := []
          showTimelineModal := false
          showHistoryModal := false
          showSidebar := true
          showVisualizerPanel := false
          savedSessions := []
          activePersona := none
          chatHistory := []
          isChatting := false
          lastGeneratedImages := [] }
      voiceSession := false
      textChat := none }

/-- C1 witness: the theorem applied to a concrete model and a concrete
call sequence (select the stored analysis, then switch persona). -/
theorem c1_witness :
    (∀ a ∈ sampleFreshModel.state.analyses, ¬a.id = "") ∧
    InstructionFresh sampleFreshModel ∧
    InstructionFresh (applyContextOps sampleFreshModel
      [ContextOp.select (some "a"), ContextOp.persona (some "tutor")]) := by
  refine ⟨by decide, rfl, ?_⟩
  exact c1_instruction_never_stale sampleFreshModel
    [ContextOp.select (some "a"), ContextOp.persona (some "tutor")]
    (by decide) rfl


/-! ## C3: removing the selected analysis reselects the first remaining record -/

/-- `jsFirstId` is plain head-projection on a store with non-empty ids. -/
theorem jsFirstId_eq (l : List Analysis) (h : ∀ a ∈ l, ¬a.id = "") :
    jsFirstId l = Option.map Analysis.id l.head? := by
  cases l with
  | nil => rfl
  | cons a t =>
    have ha : ¬a.id.isEmpty = true := by
      intro he
      exact h a (List.mem_cons_self a t) ((String.isEmpty_iff a.id).mp he)
    simp [jsFirstId, ha]

/-- C3 (confirmed, on stores whose ids are non-empty as the program
creates them): removing the currently selected analysis selects the first
record remaining after removal — or `null` when none remains — and leaves
the chat history empty. -/
theorem c3_remove_selected_reselects_first (m : Model) (idSel : String)
    (hsel : m.state.selectedAnalysisId = some idSel)
    (hids : ∀ a ∈ m.state.analyses, ¬a.id = "") :
    (removeAnalysis m idSel).state.selectedAnalysisId =
      Option.map Analysis.id
        ((m.state.analyses.filter (fun a => ¬(a.id = idSel))).head?) ∧
    (removeAnalysis m idSel).state.chatHistory = [] := by
  have heq : removeAnalysis m idSel =
      setSelectedAnalysisId
        (logEvent { m with state := { m.state with
            analyses := m.state.analyses.filter (fun a => ¬(a.id = idSel)) } }
          "Contexto removido." TimelineEventType.info)
        (jsFirstId (m.state.analyses.filter (fun a => ¬(a.id = idSel)))) := by
    simp only [removeAnalysis]
    rw [if_pos hsel]
  have hfiltids : ∀ a ∈ m.state.analyses.filter (fun a => ¬(a.id = idSel)), ¬a.id = "" :=
    fun a ha => hids a (List.mem_of_mem_filter ha)
  have hfirst : jsFirstId (m.state.analyses.filter (fun a => ¬(a.id = idSel))) =
      Option.map Analysis.id
        ((m.state.analyses.filter (fun a => ¬(a.id = idSel))).head?) :=
    jsFirstId_eq _ hfiltids
  have hguard : ¬((logEvent { m with state := { m.state with
      analyses := m.state.analyses.filter (fun a => ¬(a.id = idSel)) } }
        "Contexto removido." TimelineEventType.info).state.selectedAnalysisId =
      jsFirstId (m.state.analyses.filter (fun a => ¬(a.id = idSel)))) := by
    show ¬(m.state.selectedAnalysisId = jsFirstId _)
    rw [hsel]
    cases hf : m.state.analyses.filter (fun a => ¬(a.id = idSel)) with
    | nil => simp [jsFirstId]
    | cons b t =>
      have hb : b ∈ m.state.analyses.filter (fun a => ¬(a.id = idSel)) := by
        rw [hf]; exact List.mem_cons_self b t
      have hbne : ¬(b.id = idSel) := by
        have := List.mem_filter.mp hb
        simpa using this.2
      have hbnempty : ¬b.id.isEmpty = true := by
        intro he
        exact hfiltids b hb ((String.isEmpty_iff b.id).mp he)
      simp [jsFirstId, hbnempty]
      intro hcontra
      exact hbne hcontra.symm
  have hs := setSelectedAnalysisId_changed _ _ hguard
  rw [heq]
  exact ⟨hs.1.trans hfirst, hs.2.1⟩

/-- A model with two stored analyses and the second one selected; the
voice session is open. -/
def sampleSelectedModel : Model :=
  { state :=
      { analyses := [sampleUrlAnalysis, sampleGithubAnalysis]
        selectedAnalysisId := some "b"
        processingState := { active := false, step := "", progress := 0 }
        isRecording := false
        status := ""
        error := ""
        searchResults := []
        systemInstruction := ""
        timelineEvents := []
        showTimelineModal := false
        showHistoryModal := false
        showSidebar := true
        showVisualizerPanel := true
        savedSessions := []
        activePersona := none
        chatHistory := [{ role := ChatRole.user, text := "hello" }]
        isChatting := false
        lastGeneratedImages := [] }
    voiceSession := true
    textChat := none }

/-- C3 witness: removing the selected analysis `b` from the concrete
two-record store. -/
theorem c3_witness :
    (sampleSelectedModel.state.selectedAnalysisId = some "b" ∧
      ∀ a ∈ sampleSelectedModel.state.analyses, ¬a.id = "") ∧
    (removeAnalysis sampleSelectedModel "b").state.selectedAnalysisId =
      Option.map Analysis.id
        ((sampleSelectedModel.state.analyses.filter (fun a => ¬(a.id = "b"))).head?) ∧
    (removeAnalysis sampleSelectedModel "b").state.chatHistory = [] := by
  refine ⟨⟨rfl, by decide⟩, ?_⟩
  exact c3_remove_selected_reselects_first sampleSelectedModel "b" rfl (by decide)


/-! ## C4: the save/load round trip -/

/-- Saving and immediately reloading the same session id. -/
def saveLoadRoundtrip (m : Model) (promptResult : Option String) (sid : String) :
    Model :=
  loadSession (saveCurrentSession m promptResult sid) sid

/-- The session record `saveCurrentSession` prepends. -/
def savedOf (m : Model) (promptResult : Option String) (sid : String) : SavedSession :=
  { id := sid
    title := jsOrDefault promptResult "Sessão Salva"
    analyses := m.state.analyses
    timelineEvents := m.state.timelineEvents
    systemInstruction := m.state.systemInstruction
    searchResults := m.state.searchResults
    activePersona := m.state.activePersona }

/-- The model after `loadSession` has restored the saved fields, before it
hands over to `setSelectedAnalysisId`. -/
def restoredOf (m : Model) (promptResult : Option String) (sid : String) : Model :=
  { saveCurrentSession m promptResult sid with
    state := { (saveCurrentSession m promptResult sid).state with
      analyses := (savedOf m promptResult sid).analyses
      timelineEvents := (savedOf m promptResult sid).timelineEvents
      searchResults := (savedOf m promptResult sid).searchResults
      activePersona := (savedOf m promptResult sid).activePersona
      showHistoryModal := false } }

/-- `loadSession` on a found session is restore-then-context-switch. -/
theorem loadSession_found (m : Model) (sid : String) (sess : SavedSession)
    (hfind : m.state.savedSessions.find? (fun s => s.id = sid) = some sess) :
    loadSession m sid =
      logEvent
        (setSelectedAnalysisId
          { m with state := { m.state with
              analyses := sess.analyses
              timelineEvents := sess.timelineEvents
              searchResults := sess.searchResults
              activePersona := sess.activePersona
              showHistoryModal := false } }
          (jsFirstId sess.analyses))
        ("Sessão \"" ++ sess.title ++ "\" carregada.") TimelineEventType.history := by
  unfold loadSession
  rw [hfind]

/-- C4 (amended): saving and reloading restores a Knowledge Store
identical in content and order and leaves the first analysis's id (or
`null` on an empty store) selected — but the rebuild behaviour differs
from the claim: when the loaded first id differs from the current
selection, the voice connection is closed and *not* reopened (it reopens
lazily on the next recording) and the text session is initialized twice,
not once; when it equals the current selection, the unchanged-selection
guard makes the load a no-op and no connection is touched at all. -/
theorem c4_roundtrip_amended (m : Model) (promptResult : Option String) (sid : String)
    (hids : ∀ a ∈ m.state.analyses, ¬a.id = "") :
    (saveLoadRoundtrip m promptResult sid).state.analyses = m.state.analyses ∧
    (saveLoadRoundtrip m promptResult sid).state.selectedAnalysisId =
      Option.map Analysis.id m.state.analyses.head? ∧
    (¬(Option.map Analysis.id m.state.analyses.head? = m.state.selectedAnalysisId) →
      (saveLoadRoundtrip m promptResult sid).textInits = m.textInits + 2 ∧
      (saveLoadRoundtrip m promptResult sid).voiceSession = false ∧
      (saveLoadRoundtrip m promptResult sid).voiceConnects = m.voiceConnects ∧
      (saveLoadRoundtrip m promptResult sid).state.chatHistory = []) ∧
    (Option.map Analysis.id m.state.analyses.head? = m.state.selectedAnalysisId →
      (saveLoadRoundtrip m promptResult sid).textInits = m.textInits ∧
      (saveLoadRoundtrip m promptResult sid).voiceSession = m.voiceSession ∧
      (saveLoadRoundtrip m promptResult sid).state.chatHistory = m.state.chatHistory) := by
  have hfind : (saveCurrentSession m promptResult sid).state.savedSessions.find?
      (fun s => s.id = sid) = some (savedOf m promptResult sid) := by
    show ((savedOf m promptResult sid) :: m.state.savedSessions).find?
      (fun s => s.id = sid) = some (savedOf m promptResult sid)
    exact List.find?_cons_of_pos _ (by simp [savedOf])
  have hcomp : saveLoadRoundtrip m promptResult sid =
      logEvent
        (setSelectedAnalysisId (restoredOf m promptResult sid)
          (jsFirstId (savedOf m promptResult sid).analyses))
        ("Sessão \"" ++ (savedOf m promptResult sid).title ++ "\" carregada.")
        TimelineEventType.history :=
    loadSession_found (saveCurrentSession m promptResult sid) sid _ hfind
  have hfid : jsFirstId (savedOf m promptResult sid).analyses =
      Option.map Analysis.id m.state.analyses.head? :=
    jsFirstId_eq m.state.analyses hids
  have hrsel : (restoredOf m promptResult sid).state.selectedAnalysisId =
      m.state.selectedAnalysisId := rfl
  by_cases hcase :
      Option.map Analysis.id m.state.analyses.head? = m.state.selectedAnalysisId
  · have hnoop : setSelectedAnalysisId (restoredOf m promptResult sid)
        (jsFirstId (savedOf m promptResult sid).analyses) =
        restoredOf m promptResult sid := by
      apply setSelectedAnalysisId_noop
      rw [hrsel, hfid]
      exact hcase.symm
    refine ⟨?_, ?_, fun hne => absurd hcase hne, fun _ => ⟨?_, ?_, ?_⟩⟩
    · rw [hcomp, hnoop]; rfl
    · rw [hcomp, hnoop]
      show m.state.selectedAnalysisId = _
      exact hcase.symm
    · rw [hcomp, hnoop]; rfl
    · rw [hcomp, hnoop]; rfl
    · rw [hcomp, hnoop]; rfl
  · have hguard : ¬((restoredOf m promptResult sid).state.selectedAnalysisId =
        jsFirstId (savedOf m promptResult sid).analyses) := by
      rw [hrsel, hfid]
      exact fun hh => hcase hh.symm
    obtain ⟨hsel', hch, _, han, _, _, _, hvs, _, hvcn, hti⟩ :=
      setSelectedAnalysisId_changed (restoredOf m promptResult sid)
        (jsFirstId (savedOf m promptResult sid).analyses) hguard
    refine ⟨?_, ?_, fun _ => ⟨?_, ?_, ?_, ?_⟩, fun heq => absurd heq hcase⟩
    · rw [hcomp]
      show (setSelectedAnalysisId _ _).state.analyses = _
      rw [han]; rfl
    · rw [hcomp]
      show (setSelectedAnalysisId _ _).state.selectedAnalysisId = _
      rw [hsel', hfid]
    · rw [hcomp]
      show (setSelectedAnalysisId _ _).textInits = _
      rw [hti]; rfl
    · rw [hcomp]
      show (setSelectedAnalysisId _ _).voiceSession = _
      exact hvs
    · rw [hcomp]
      show (setSelectedAnalysisId _ _).voiceConnects = _
      rw [hvcn]; rfl
    · rw [hcomp]
      show (setSelectedAnalysisId _ _).state.chatHistory = _
      exact hch

/-- C4 counterexample: on a concrete model (two analyses, the second
selected, live voice session open, no text chat yet) saving and reloading
initializes the text session twice and never opens a voice connection, so
neither connection is rebuilt "exactly once". -/
theorem c4_counterexample :
    sampleSelectedModel.textInits = 0 ∧
    sampleSelectedModel.voiceConnects = 0 ∧
    (saveLoadRoundtrip sampleSelectedModel (some "t") "s1").textInits = 2 ∧
    (saveLoadRoundtrip sampleSelectedModel (some "t") "s1").voiceConnects = 0 := by
  exact ⟨rfl, rfl, rfl, rfl⟩

/-- C4 witness: the amended theorem applied to the concrete model whose
loaded first id (`"a"`) differs from the current selection (`"b"`). -/
theorem c4_witness :
    (∀ a ∈ sampleSelectedModel.state.analyses, ¬a.id = "") ∧
    (saveLoadRoundtrip sampleSelectedModel (some "t") "s1").state.analyses =
      sampleSelectedModel.state.analyses ∧
    (saveLoadRoundtrip sampleSelectedModel (some "t") "s1").state.selectedAnalysisId =
      Option.map Analysis.id sampleSelectedModel.state.analyses.head? ∧
    (saveLoadRoundtrip sampleSelectedModel (some "t") "s1").textInits =
      sampleSelectedModel.textInits + 2 := by
  have h := c4_roundtrip_amended sampleSelectedModel (some "t") "s1" (by decide)
  exact ⟨by decide, h.1, h.2.1, (h.2.2.1 (by decide)).1⟩


/-! ## C7: an edit directive with an empty "last generated" buffer -/

/-- C7 (confirmed): whenever the edit job runs with an empty
"last generated images" buffer and the turn's trailing message is the
assistant's (as it is at dispatch time), the edit transport is never
invoked (`false`), the deterministic error suffix is appended to that
message's text, and nothing else in the state changes. -/
theorem c7_edit_empty_buffer_local_failure (m : Model)
    (response : Except String (List RespPart)) (lastMessage : ChatMessage)
    (hlast : m.state.chatHistory.getLast? = some lastMessage)
    (hrole : lastMessage.role = ChatRole.model)
    (hempty : m.state.lastGeneratedImages = []) :
    triggerImageEditing m response =
      ({ m with state := { m.state with
          chatHistory := m.state.chatHistory.dropLast ++
            [{ lastMessage with text := lastMessage.text ++ editErrorNoImages }] } },
        false) := by
  unfold triggerImageEditing
  simp only [hlast]
  rw [if_neg (not_not_intro hrole)]
  rw [if_pos (by rw [hempty]; rfl)]

/-- A model whose chat history ends in an assistant message and whose
generated-image buffer is empty. -/
def sampleEditModel : Model :=
  { state := { sampleSelectedModel.state with
      chatHistory := [{ role := ChatRole.user, text := "u" },
        { role := ChatRole.model, text := "resp" }]
      lastGeneratedImages := [] }
    voiceSession := false
    textChat := none }

/-- C7 witness: the theorem applied to the concrete model. -/
theorem c7_witness :
    (sampleEditModel.state.chatHistory.getLast? =
        some { role := ChatRole.model, text := "resp" } ∧
      sampleEditModel.state.lastGeneratedImages = []) ∧
    triggerImageEditing sampleEditModel (Except.ok []) =
      ({ sampleEditModel with state := { sampleEditModel.state with
          chatHistory := sampleEditModel.state.chatHistory.dropLast ++
            [{ role := ChatRole.model, text := "resp" ++ editErrorNoImages }] } },
        false) := by
  refine ⟨⟨rfl, rfl⟩, ?_⟩
  exact c7_edit_empty_buffer_local_failure sampleEditModel (Except.ok [])
    { role := ChatRole.model, text := "resp" } rfl rfl rfl

/-! ## C10: the `sendTextMessage` guard -/

/-- C10 (confirmed): a `sendTextMessage` call with no text session, or
with a turn already in flight, or whose message trims to empty, is a
complete no-op — no transport call, no dispatched directive, and the
returned model is the argument unchanged. -/
theorem c10_send_guard_noop (m : Model) (message : String) (chunks : List Chunk)
    (h : m.textChat = none ∨ m.state.isChatting = true ∨ jsTrim message = "") :
    sendTextMessage m message chunks =
      { model := m, dispatched := [], sentMessage := none } := by
  unfold sendTextMessage
  rw [if_pos]
  rcases h with h | h | h
  · exact Or.inl h
  · exact Or.inr (Or.inl h)
  · exact Or.inr (Or.inr ((String.isEmpty_iff (jsTrim message)).mpr h))

/-- A model whose guard would pass except for the message text. -/
def sampleGuardModel : Model :=
  { sampleSelectedModel with
    textChat := some { history := [], systemInstruction := "" } }

/-- C10 witness: a whitespace-only message on a model with a live text
session and no turn in flight. -/
theorem c10_witness :
    (sampleGuardModel.textChat = none ∨ sampleGuardModel.state.isChatting = true ∨
      jsTrim " \t  " = "") ∧
    sendTextMessage sampleGuardModel " \t  " [{ text := some "ignored" }] =
      { model := sampleGuardModel, dispatched := [], sentMessage := none } := by
  refine ⟨Or.inr (Or.inr (by decide)), ?_⟩
  exact c10_send_guard_noop sampleGuardModel " \t  " [{ text := some "ignored" }]
    (Or.inr (Or.inr (by decide)))


/-! ## C9: the seed history filter -/

/-- An assistant message that carries image payloads and non-empty text. -/
def imageCarryingMessage : ChatMessage :=
  { role := ChatRole.model, text := "veja", imageUrls := some ["u"] }

/-- C9 counterexample: a message carrying image payloads but non-empty
text is retained in the seed history — the filter is on text truthiness,
not on image payloads, so the claimed seed `[]` is wrong for this
history. -/
theorem c9_counterexample :
    imageCarryingMessage.imageUrls = some ["u"] ∧
    seedHistory [imageCarryingMessage] = [(ChatRole.model, "veja")] :=
  ⟨rfl, rfl⟩

/-- C9 (amended): on every text-chat rebuild the seed history supplied to
the new session is exactly the prior chat history with every message whose
text is empty excluded — image payloads play no role: a message with
non-empty text is retained whether or not it carries images, and a message
with empty text is dropped even without images. -/
theorem c9_seed_is_text_filter (m : Model) :
    (initializeTextChat m).textChat =
      some { history := seedHistory m.state.chatHistory,
             systemInstruction := m.state.systemInstruction } ∧
    seedHistory m.state.chatHistory =
      (m.state.chatHistory.filter (fun msg => !msg.text.isEmpty)).map
        (fun msg => (msg.role, msg.text)) ∧
    (∀ msg ∈ m.state.chatHistory, ¬msg.text.isEmpty = true →
      (msg.role, msg.text) ∈ seedHistory m.state.chatHistory) ∧
    (∀ e ∈ seedHistory m.state.chatHistory,
      ∃ msg, msg ∈ m.state.chatHistory ∧ ¬msg.text.isEmpty = true ∧
        e = (msg.role, msg.text)) := by
  refine ⟨rfl, rfl, ?_, ?_⟩
  · intro msg hm ht
    unfold seedHistory
    exact List.mem_map.mpr ⟨msg,
      List.mem_filter.mpr ⟨hm, by simp [jsTruthy, Bool.not_eq_true] at ht ⊢; exact ht⟩, rfl⟩
  · intro e he
    unfold seedHistory at he
    obtain ⟨msg, hmem, hmap⟩ := List.mem_map.mp he
    obtain ⟨hm, hp⟩ := List.mem_filter.mp hmem
    exact ⟨msg, hm, by simpa [jsTruthy] using hp, hmap.symm⟩

/-- C9 witness: the membership conjuncts applied to a concrete history
holding an image-carrying message with text and an empty-text message. -/
theorem c9_witness :
    imageCarryingMessage ∈ [imageCarryingMessage] ∧
    ¬imageCarryingMessage.text.isEmpty = true ∧
    (imageCarryingMessage.role, imageCarryingMessage.text) ∈
      seedHistory [imageCarryingMessage] := by
  refine ⟨List.mem_singleton_self _, by decide, ?_⟩
  exact (c9_seed_is_text_filter
      { sampleEditModel with
        state := { sampleEditModel.state with chatHistory := [imageCarryingMessage] } }).2.2.1
    imageCarryingMessage (List.mem_singleton_self _) (by decide)

/-! ## C2: single dispatch and grammar priority -/

/-- One stream iteration either keeps the flag and the dispatch list, or
turns the flag on while dispatching exactly one directive. -/
theorem processChunk_dispatch (st : LoopState) (c : Chunk) :
    ((processChunk st c).commandProcessed = st.commandProcessed ∧
      (processChunk st c).dispatched = st.dispatched) ∨
    (st.commandProcessed = false ∧ (processChunk st c).commandProcessed = true ∧
      ∃ d, (processChunk st c).dispatched = st.dispatched ++ [d]) := by
  unfold processChunk scanAccumulated
  cases hct : c.text with
  | none => exact Or.inl ⟨rfl, rfl⟩
  | some t =>
    dsimp only
    by_cases hemp : t.isEmpty = true
    · rw [if_pos hemp]
      exact Or.inl ⟨rfl, rfl⟩
    · rw [if_neg hemp]
      by_cases hcp : st.commandProcessed = true
      · rw [if_pos hcp]
        exact Or.inl ⟨hcp.symm, by simp⟩
      · have hcpf : st.commandProcessed = false := by
          revert hcp; cases st.commandProcessed <;> simp
        rw [if_neg hcp]
        cases hg : findGen (st.accumulated ++ t.data) with
        | some r =>
          obtain ⟨i, len, digits, prompt⟩ := r
          exact Or.inr ⟨hcpf, rfl,
            ⟨Directive.generateImages (digitsToNat digits) (String.mk prompt), by simp⟩⟩
        | none =>
          cases he : findEdit (st.accumulated ++ t.data) with
          | some r =>
            obtain ⟨i, len, prompt⟩ := r
            exact Or.inr ⟨hcpf, rfl, ⟨Directive.editImage (String.mk prompt), by simp⟩⟩
          | none =>
            exact Or.inl ⟨hcpf.symm, by simp⟩

/-- The loop dispatches at most one directive, and none at all while the
flag is still down. -/
theorem loop_dispatch_invariant (chunks : List Chunk) :
    ∀ st : LoopState,
      (st.commandProcessed = false → st.dispatched = []) →
      st.dispatched.length ≤ 1 →
      ((chunks.foldl processChunk st).commandProcessed = false →
        (chunks.foldl processChunk st).dispatched = []) ∧
      (chunks.foldl processChunk st).dispatched.length ≤ 1 := by
  induction chunks with
  | nil => exact fun st h1 h2 => ⟨h1, h2⟩
  | cons c rest ih =>
    intro st h1 h2
    rw [List.foldl_cons]
    rcases processChunk_dispatch st c with ⟨hcp, hd⟩ | ⟨hcp0, hcp1, d, hd⟩
    · exact ih _ (fun hf => hd.trans (h1 (hcp.symm.trans hf))) (hd ▸ h2)
    · refine ih _ (fun hf => absurd (hcp1.symm.trans hf) (by simp)) ?_
      rw [hd, h1 hcp0]
      simp

/-- C2 (amended): within one `sendTextMessage` turn at most one directive
is ever dispatched to the image-job runner, and recognition is disabled
after the first dispatch — but when the accumulated buffer matches both
grammars, the *generate* grammar wins regardless of buffer order, because
the source tests `generateRegex` before `editRegex`. -/
theorem c2_single_dispatch_generate_priority (m : Model) (message : String)
    (chunks : List Chunk) :
    (sendTextMessage m message chunks).dispatched.length ≤ 1 ∧
    (∀ (s : String) (grounding : List SearchResult) (i len : Nat)
        (digits promptCap : List Char),
      findGen s.data = some (i, len, digits, promptCap) →
      ¬(m.textChat = none) → m.state.isChatting = false →
      ¬(jsTrim message).isEmpty = true →
      (sendTextMessage m message [{ text := some s, grounding := grounding }]).dispatched =
        [Directive.generateImages (digitsToNat digits) (String.mk promptCap)]) := by
  constructor
  · unfold sendTextMessage
    split
    · simp
    · exact (loop_dispatch_invariant chunks _ (fun _ => rfl) (by simp)).2
  · intro s grounding i len digits promptCap hfg htc hic hmsg
    have hsne : ¬s.isEmpty = true := by
      intro hse
      have hdat : s.data = [] := by
        rw [(String.isEmpty_iff s).mp hse]
      rw [hdat] at hfg
      exact Option.noConfusion hfg
    unfold sendTextMessage
    rw [if_neg]
    · show (List.foldl processChunk _ [{ text := some s, grounding := grounding }]).dispatched = _
      rw [List.foldl_cons, List.foldl_nil]
      unfold processChunk scanAccumulated
      dsimp only
      rw [if_neg hsne]
      rw [if_neg Bool.false_ne_true]
      rw [show (([] : List Char) ++ s.data) = s.data from by simp, hfg]
      simp
    · rintro (hg | hg | hg)
      · exact htc hg
      · rw [hic] at hg
        exact Bool.noConfusion hg
      · exact hmsg hg

/-- C2 counterexample: in a buffer holding an edit directive at index 0
and a generate directive at index 18, the dispatched directive is the
generate one — not the directive whose match occurs first in buffer
order. -/
theorem c2_counterexample :
    (findEdit "[edit_image: 'a'] [generate_images(1): 'b']".data).map
      (fun r => r.1) = some 0 ∧
    (findGen "[edit_image: 'a'] [generate_images(1): 'b']".data).map
      (fun r => r.1) = some 18 ∧
    (sendTextMessage sampleGuardModel "oi"
      [{ text := some "[edit_image: 'a'] [generate_images(1): 'b']" }]).dispatched =
      [Directive.generateImages 1 "b"] :=
  ⟨rfl, rfl, rfl⟩

/-- C2 witness: the amended theorem applied to a concrete one-fragment
turn whose buffer matches both grammars. -/
theorem c2_witness :
    (findGen "[edit_image: 'a'] [generate_images(1): 'b']".data =
        some (18, 25, ['1'], ['b']) ∧
      ¬(sampleGuardModel.textChat = none) ∧
      sampleGuardModel.state.isChatting = false ∧
      ¬(jsTrim "oi").isEmpty = true) ∧
    (sendTextMessage sampleGuardModel "oi"
      [{ text := some "[edit_image: 'a'] [generate_images(1): 'b']",
         grounding := [] }]).dispatched =
      [Directive.generateImages (digitsToNat ['1']) (String.mk ['b'])] := by
  refine ⟨⟨rfl, by simp [sampleGuardModel], rfl, by decide⟩, ?_⟩
  exact (c2_single_dispatch_generate_priority sampleGuardModel "oi" []).2
    "[edit_image: 'a'] [generate_images(1): 'b']" [] 18 25 ['1'] ['b']
    rfl (by simp [sampleGuardModel]) rfl (by decide)


/-! ## C8: a buffer that never completes a directive -/

/-- The characters a chunk contributes to the accumulated buffer (none
when its text is absent or empty — the `if (chunkText)` truthiness
guard). -/
def chunkTextData (c : Chunk) : List Char :=
  match c.text with
  | none => []
  | some t => if t.isEmpty then [] else t.data

/-- The accumulated buffer after the first `k` chunks (absent a
dispatch). -/
def accumulatedAt (chunks : List Chunk) (k : Nat) : List Char :=
  ((chunks.take k).map chunkTextData).flatten

/-- Neither grammar matches the buffer. -/
def noDirective (l : List Char) : Bool :=
  (findGen l).isNone && (findEdit l).isNone

/-- The accumulated buffer never contains a complete well-formed
directive at any point of the stream. -/
def neverCompletesDirective (chunks : List Chunk) : Bool :=
  (List.range (chunks.length + 1)).all
    (fun k => noDirective (accumulatedAt chunks k))

theorem accumulatedAt_cons (c : Chunk) (rest : List Chunk) (k : Nat) :
    accumulatedAt (c :: rest) (k + 1) = chunkTextData c ++ accumulatedAt rest k := by
  unfold accumulatedAt
  simp

/-- Patching the trailing model message rewrites exactly its text. -/
theorem updateLastModelText_concat (base : List ChatMessage) (msg : ChatMessage)
    (h : msg.role = ChatRole.model) (txt : String) :
    updateLastModelText (base ++ [msg]) txt = base ++ [{ msg with text := txt }] := by
  unfold updateLastModelText
  rw [List.getLast?_concat]
  dsimp only
  rw [if_pos h, List.dropLast_concat]

/-- A chunk contributing no text changes none of the scanner-visible loop
fields. -/
theorem processChunk_no_text (st : LoopState) (c : Chunk)
    (h : chunkTextData c = []) :
    (processChunk st c).commandProcessed = st.commandProcessed ∧
    (processChunk st c).dispatched = st.dispatched ∧
    (processChunk st c).accumulated = st.accumulated ∧
    (processChunk st c).chatHistory = st.chatHistory := by
  unfold processChunk
  cases hct : c.text with
  | none => exact ⟨rfl, rfl, rfl, rfl⟩
  | some t =>
    dsimp only
    have hemp : t.isEmpty = true := by
      simp only [chunkTextData, hct] at h
      by_cases he : t.isEmpty = true
      · exact he
      · rw [if_neg he] at h
        cases t with
        | mk data =>
          have h2 : data = [] := h
          subst h2
          exact absurd rfl he
    rw [if_pos hemp]
    exact ⟨rfl, rfl, rfl, rfl⟩

/-- A text-bearing chunk whose extended buffer matches neither grammar
appends to the buffer and patches the trailing message, and nothing is
dispatched. -/
theorem processChunk_text_no_match (st : LoopState) (c : Chunk) (t : String)
    (hct : c.text = some t) (hemp : ¬t.isEmpty = true)
    (hcp : st.commandProcessed = false)
    (hgen : findGen (st.accumulated ++ t.data) = none)
    (hedit : findEdit (st.accumulated ++ t.data) = none) :
    (processChunk st c).commandProcessed = false ∧
    (processChunk st c).dispatched = st.dispatched ∧
    (processChunk st c).accumulated = st.accumulated ++ t.data ∧
    (processChunk st c).chatHistory =
      updateLastModelText st.chatHistory (String.mk (st.accumulated ++ t.data)) := by
  unfold processChunk scanAccumulated
  rw [hct]
  dsimp only
  rw [if_neg hemp, hcp]
  rw [if_neg Bool.false_ne_true]
  rw [hgen, hedit]
  exact ⟨rfl, by simp, rfl, rfl⟩

/-- The stream loop on a stream that never completes a directive: nothing
is dispatched, the buffer is the plain concatenation, and the trailing
model message shows exactly that concatenation. -/
theorem loop_no_directive (chunks : List Chunk) :
    ∀ (st : LoopState) (base : List ChatMessage) (mm : ChatMessage),
      mm.role = ChatRole.model →
      st.commandProcessed = false →
      st.dispatched = [] →
      st.chatHistory = base ++ [{ mm with text := String.mk st.accumulated }] →
      (∀ k, noDirective (st.accumulated ++ accumulatedAt chunks k) = true) →
      (chunks.foldl processChunk st).dispatched = [] ∧
      (chunks.foldl processChunk st).chatHistory =
        base ++ [{ mm with text := String.mk (st.accumulated ++ (chunks.map chunkTextData).flatten) }] := by
  induction chunks with
  | nil =>
    intro st base mm hrole hcp hdisp hch hno
    refine ⟨hdisp, ?_⟩
    simpa using hch
  | cons c rest ih =>
    intro st base mm hrole hcp hdisp hch hno
    rw [List.foldl_cons]
    by_cases hskip : chunkTextData c = []
    · obtain ⟨h1, h2, h3, h4⟩ := processChunk_no_text st c hskip
      have hch' : (processChunk st c).chatHistory =
          base ++ [{ mm with text := String.mk (processChunk st c).accumulated }] := by
        rw [h4, h3, hch]
      have hno' : ∀ k,
          noDirective ((processChunk st c).accumulated ++ accumulatedAt rest k) = true := by
        intro k
        rw [h3]
        have := hno (k + 1)
        rw [accumulatedAt_cons, hskip] at this
        simpa using this
      have hres := ih (processChunk st c) base mm hrole (h1.trans hcp)
        (h2.trans hdisp) hch' hno'
      refine ⟨hres.1, ?_⟩
      rw [hres.2, h3]
      simp [hskip]
    · have hex : ∃ t, c.text = some t := by
        cases hc : c.text with
        | none =>
          exfalso
          apply hskip
          unfold chunkTextData
          rw [hc]
        | some t => exact ⟨t, rfl⟩
      obtain ⟨t, hct⟩ := hex
      have hemp : ¬t.isEmpty = true := by
        intro he
        apply hskip
        unfold chunkTextData
        rw [hct]
        dsimp only
        rw [if_pos he]
      have hctd : chunkTextData c = t.data := by
        unfold chunkTextData
        rw [hct]
        dsimp only
        rw [if_neg hemp]
      have hnm : noDirective (st.accumulated ++ t.data) = true := by
        have h1 := hno 1
        rw [accumulatedAt_cons, hctd] at h1
        simpa [accumulatedAt] using h1
      have hgen : findGen (st.accumulated ++ t.data) = none := by
        have := (Bool.and_eq_true _ _).mp hnm
        exact Option.isNone_iff_eq_none.mp this.1
      have hedit : findEdit (st.accumulated ++ t.data) = none := by
        have := (Bool.and_eq_true _ _).mp hnm
        exact Option.isNone_iff_eq_none.mp this.2
      obtain ⟨h1, h2, h3, h4⟩ := processChunk_text_no_match st c t hct hemp hcp hgen hedit
      have hch' : (processChunk st c).chatHistory =
          base ++ [{ mm with text := String.mk (processChunk st c).accumulated }] := by
        rw [h3, h4, hch,
          updateLastModelText_concat base { mm with text := String.mk st.accumulated } hrole]
      have hno' : ∀ k,
          noDirective ((processChunk st c).accumulated ++ accumulatedAt rest k) = true := by
        intro k
        rw [h3]
        have := hno (k + 1)
        rw [accumulatedAt_cons, hctd] at this
        simpa [List.append_assoc] using this
      have hres := ih (processChunk st c) base mm hrole h1 (h2.trans hdisp) hch' hno'
      refine ⟨hres.1, ?_⟩
      rw [hres.2, h3]
      simp [hctd, List.append_assoc]

/-- C8 (confirmed): when the accumulating buffer never contains a complete
well-formed bracketed directive at any point of the turn, no directive is
dispatched (no image job starts) and the displayed assistant text is the
raw concatenation of the stream — the literal bracket text stays
visible. -/
theorem c8_incomplete_directive_degrades (m : Model) (message : String)
    (chunks : List Chunk)
    (htc : ¬(m.textChat = none)) (hic : m.state.isChatting = false)
    (hmsg : ¬(jsTrim message).isEmpty = true)
    (hnever : neverCompletesDirective chunks = true) :
    (sendTextMessage m message chunks).dispatched = [] ∧
    (sendTextMessage m message chunks).model.state.chatHistory =
      m.state.chatHistory ++
        [{ role := ChatRole.user, text := message },
         { role := ChatRole.model,
           text := String.mk ((chunks.map chunkTextData).flatten) }] := by
  have hall : ∀ k, noDirective (([] : List Char) ++ accumulatedAt chunks k) = true := by
    intro k
    by_cases hk : k ≤ chunks.length
    · have := List.all_eq_true.mp hnever k
        (List.mem_range.mpr (Nat.lt_succ_of_le hk))
      simpa using this
    · have hsat : accumulatedAt chunks k = accumulatedAt chunks chunks.length := by
        unfold accumulatedAt
        rw [List.take_of_length_le (Nat.le_of_not_le hk), List.take_length]
      rw [hsat]
      have := List.all_eq_true.mp hnever chunks.length
        (List.mem_range.mpr (Nat.lt_succ_self _))
      simpa using this
  have key := loop_no_directive chunks
    { chatHistory := (m.state.chatHistory ++ [{ role := ChatRole.user, text := message }]) ++
        [{ role := ChatRole.model, text := "" }]
      accumulated := []
      commandProcessed := false
      dispatched := []
      results := [] }
    (m.state.chatHistory ++ [{ role := ChatRole.user, text := message }])
    { role := ChatRole.model, text := "" }
    rfl rfl rfl rfl hall
  have hguard : ¬(m.textChat = none ∨ m.state.isChatting = true ∨
      (jsTrim message).isEmpty = true) := by
    rintro (hg | hg | hg)
    · exact htc hg
    · rw [hic] at hg
      exact Bool.noConfusion hg
    · exact hmsg hg
  unfold sendTextMessage
  rw [if_neg hguard]
  refine ⟨key.1, ?_⟩
  show (List.foldl processChunk _ chunks).chatHistory = _
  rw [key.2]
  simp


/-- C8 witness: the theorem applied to a stream that assembles the
malformed directive `[generate_images(x): 'cats']` across a fragment
boundary — nothing is dispatched and the literal bracket text is what the
assistant message displays. -/
theorem c8_witness :
    (¬(sampleGuardModel.textChat = none) ∧
      sampleGuardModel.state.isChatting = false ∧
      ¬(jsTrim "oi").isEmpty = true ∧
      neverCompletesDirective
        [{ text := some "[generate_im" }, { text := some "ages(x): 'cats']" }] = true) ∧
    (sendTextMessage sampleGuardModel "oi"
        [{ text := some "[generate_im" }, { text := some "ages(x): 'cats']" }]).dispatched =
      [] ∧
    (sendTextMessage sampleGuardModel "oi"
        [{ text := some "[generate_im" },
         { text := some "ages(x): 'cats']" }]).model.state.chatHistory =
      sampleGuardModel.state.chatHistory ++
        [{ role := ChatRole.user, text := "oi" },
         { role := ChatRole.model, text := "[generate_images(x): 'cats']" }] := by
  refine ⟨⟨by decide, rfl, by decide, by decide⟩, ?_⟩
  exact c8_incomplete_directive_degrades sampleGuardModel "oi"
    [{ text := some "[generate_im" }, { text := some "ages(x): 'cats']" }]
    (by decide) rfl (by decide) (by decide)


end NotesBrainGem
